import Mathlib

/-!
# IPsec datapath of the PPN client (krypton)

A shallow embedding of `krypton/datapath/android_ipsec/ipsec_datapath.cc`.

The object `IpSecDatapath` becomes a record of its member variables, each
method becomes a function from the record (and the arguments) to the returned
status and the record after the call.  Calls the datapath makes on its
collaborators (the packet forwarder, the network socket, the platform
`VpnService`, the notification thread) are appended to the field `trace`, in
program order, so that "is called", "is posted" and "exactly once" are
statements about that list.

What the platform answers (`GetTunnel`, `CreateProtectedNetworkSocket`,
`ConfigureIpSec`) is outside this translation unit, so it is an argument of
`SwitchNetwork`: the theorems hold for every platform.

The mutex is not modelled: every method body below runs under `mutex_` in the
source, so the bodies are atomic with respect to each other.

The tunnel endpoint of `krypton/datapath/android_ipsec/ipsec_tunnel.cc` and
`VpnService::BuildDatapath` and `VpnService::CreateProtectedNetworkSocket` of
`krypton/jni/vpn_service.cc` are embedded the same way further down.  For
the tunnel: `IpSecTunnel` is a record of its members with the
trace of its calls on the kernel, and what the kernel answers is an argument.
A retry loop runs against the list of the kernel's successive answers; a
method whose loop has not ended on them returns `none` together with the
calls made so far.
-/

namespace Krypton

/-! ## Statuses -/

/-- The `absl::StatusCode` values (canonical codes). -/
inductive StatusCode where
  | kOk
  | kCancelled
  | kUnknown
  | kInvalidArgument
  | kDeadlineExceeded
  | kNotFound
  | kAlreadyExists
  | kPermissionDenied
  | kResourceExhausted
  | kFailedPrecondition
  | kAborted
  | kOutOfRange
  | kUnimplemented
  | kInternal
  | kUnavailable
  | kDataLoss
  | kUnauthenticated
  deriving DecidableEq, Repr

/-- An `absl::Status`: a code and a message. -/
structure Status where
  code : StatusCode
  message : String
  deriving DecidableEq, Repr

/-- The method `absl::Status::ok()`. -/
def Status.ok (s : Status) : Bool := s.code == StatusCode.kOk

/-- The function `absl::OkStatus()`. -/
def OkStatus : Status := ⟨StatusCode.kOk, ""⟩

/-- The function `absl::InvalidArgumentError(msg)`. -/
def InvalidArgumentError (msg : String) : Status := ⟨StatusCode.kInvalidArgument, msg⟩

/-- The function `absl::FailedPreconditionError(msg)`. -/
def FailedPreconditionError (msg : String) : Status := ⟨StatusCode.kFailedPrecondition, msg⟩

/-- The function `absl::InternalError(msg)`. -/
def InternalError (msg : String) : Status := ⟨StatusCode.kInternal, msg⟩

/-- The function `absl::AbortedError(msg)`. -/
def AbortedError (msg : String) : Status := ⟨StatusCode.kAborted, msg⟩

/-! ## Messages and plain values -/

/-- The enum `IPProtocol` of an endpoint or packet. -/
inductive IPProtocol where
  | kUnknown
  | kIPv4
  | kIPv6
  deriving DecidableEq, Repr

/-- The class `Endpoint`: address, port and IP protocol, read through
`address()`, `port()` and `ip_protocol()`. -/
structure Endpoint where
  address : String
  port : Int
  ip_protocol : IPProtocol
  deriving DecidableEq, Repr

/-- The enum `NetworkInfo::AddressFamily`, as far as the datapath uses it. -/
inductive AddressFamily where
  | V4
  | V6
  deriving DecidableEq, Repr

/-- The message `NetworkInfo`; the datapath reads `network_id()` only. -/
structure NetworkInfo where
  network_id : Int
  deriving DecidableEq, Repr

/-- The message `google.protobuf.Duration`. -/
structure Duration where
  seconds : Int
  nanos : Int
  deriving DecidableEq, Repr

/-- The enum `KryptonConfig::DatapathProtocol`: `IPSEC`, the one value the
sources under study compare with, or any other value. -/
inductive DatapathProtocol where
  | IPSEC
  | OTHER
  deriving DecidableEq, Repr

/-- The message `KryptonConfig`, as far as the datapath and `VpnService` read
it: the two optional keepalive intervals (`has_x()` is `isSome`) and the
datapath protocol. -/
structure KryptonConfig where
  ipv4_keepalive_interval : Option Duration
  ipv6_keepalive_interval : Option Duration
  datapath_protocol : DatapathProtocol := DatapathProtocol.IPSEC
  deriving DecidableEq, Repr

/-- The message `IpSecTransformParams`, the datapath's key material.  A field
never set reads as its default (`0`, the empty string, `none` for the
family). -/
structure IpSecTransformParams where
  uplink_spi : Nat
  downlink_spi : Nat
  uplink_key : List Nat
  downlink_key : List Nat
  uplink_salt : List Nat
  downlink_salt : List Nat
  network_id : Int
  network_fd : Int
  destination_address : String
  destination_port : Int
  destination_address_family : Option AddressFamily
  keepalive_interval_seconds : Int
  deriving DecidableEq, Repr

/-- The default instance of `IpSecTransformParams` (every field unset). -/
def IpSecTransformParams.default_instance : IpSecTransformParams :=
  { uplink_spi := 0, downlink_spi := 0, uplink_key := [], downlink_key := [],
    uplink_salt := [], downlink_salt := [], network_id := 0, network_fd := 0,
    destination_address := "", destination_port := 0,
    destination_address_family := none, keepalive_interval_seconds := 0 }

/-- The message `BridgeTransformParams`, the other variant of the oneof. -/
structure BridgeTransformParams where
  uplink_key : List Nat
  downlink_key : List Nat
  deriving DecidableEq, Repr

/-- The message `TransformParams`: a oneof that is unset, bridge or ipsec. -/
inductive TransformParams where
  | unset
  | bridge (b : BridgeTransformParams)
  | ipsec (p : IpSecTransformParams)
  deriving DecidableEq, Repr

/-- The accessor `TransformParams::has_ipsec()`. -/
def TransformParams.has_ipsec : TransformParams → Bool
  | TransformParams.ipsec _ => true
  | _ => false

/-- The accessor `TransformParams::ipsec()`: the variant, or the default
instance when another variant is set. -/
def TransformParams.get_ipsec : TransformParams → IpSecTransformParams
  | TransformParams.ipsec p => p
  | _ => IpSecTransformParams.default_instance

/-- The class `AddEgressResponse`; `Start` ignores it. -/
structure AddEgressResponse where
  body : String
  deriving DecidableEq, Repr

/-! ## Collaborators -/

/-- A `TunnelInterface*` that is not null: the tunnel the platform owns. -/
structure TunnelRef where
  id : Nat
  deriving DecidableEq, Repr

/-- An `IpSecSocketInterface` object, known by what `GetFd()` returns. -/
structure IpSecSocket where
  fd : Int
  deriving DecidableEq, Repr

/-- The method `IpSecSocketInterface::GetFd`. -/
def IpSecSocket.GetFd (s : IpSecSocket) : Int := s.fd

/-- An `IpSecPacketForwarder` object: the tunnel and the socket it was
constructed over, and whether `Start()` has been called on it. -/
structure IpSecPacketForwarder where
  tunnel : TunnelRef
  network_socket : IpSecSocket
  started : Bool
  deriving DecidableEq, Repr

/-- The events of `DatapathInterface::NotificationInterface`. -/
inductive Notification where
  | DatapathEstablished
  | DatapathFailed (status : Status)
  | DatapathPermanentFailure (status : Status)
  | DoRekey
  deriving DecidableEq, Repr

/-- A call on a collaborator, as recorded in the trace. -/
inductive Event where
  | forwarderStart (f : IpSecPacketForwarder)
  | forwarderStop (f : IpSecPacketForwarder)
  | socketClose (s : IpSecSocket)
  | tunnelClose (t : TunnelRef)
  | createProtectedNetworkSocket (network_info : NetworkInfo) (endpoint : Endpoint)
  | configureIpSec (params : IpSecTransformParams)
  | post (n : Notification)
  deriving DecidableEq, Repr

/-- What the platform (`VpnServiceInterface`) answers during one call of
`SwitchNetwork`.  `CreateProtectedNetworkSocket` returns an
`absl::StatusOr<std::unique_ptr<IpSecSocketInterface>>`: an error status, or
a pointer that may be null (`none`). -/
structure VpnServiceInterface where
  GetTunnel : Option TunnelRef
  CreateProtectedNetworkSocket : NetworkInfo → Endpoint → Except Status (Option IpSecSocket)
  ConfigureIpSec : IpSecTransformParams → Status

/-! ## The datapath -/

/-- The member variables of `IpSecDatapath`, and the trace of the calls it
has made on its collaborators. -/
structure IpSecDatapath where
  config_ : KryptonConfig
  key_material_ : Option IpSecTransformParams
  network_socket_ : Option IpSecSocket
  forwarder_ : Option IpSecPacketForwarder
  trace : List Event
  deriving DecidableEq, Repr

namespace IpSecDatapath

/-- Appends one event to the trace. -/
def emit (d : IpSecDatapath) (e : Event) : IpSecDatapath :=
  { d with trace := d.trace ++ [e] }

/-- The method `IpSecDatapath::Start`.  The `DCHECK` on `notification_` is a
debug-build assertion on the caller and has no effect on the state. -/
def Start (d : IpSecDatapath) (_egress_response : AddEgressResponse)
    (params : TransformParams) : Status × IpSecDatapath :=
  if !params.has_ipsec then
    (InvalidArgumentError "IPSec datapath missing transform params", d)
  else
    (OkStatus, { d with key_material_ := some params.get_ipsec })

/-- The method `IpSecDatapath::ShutdownIpSecPacketForwarder`. -/
def ShutdownIpSecPacketForwarder (d : IpSecDatapath) : IpSecDatapath :=
  let d1 :=
    match d.forwarder_ with
    | some f => { d.emit (Event.forwarderStop f) with forwarder_ := none }
    | none => d
  match d1.network_socket_ with
  | some s => { d1.emit (Event.socketClose s) with network_socket_ := none }
  | none => d1

/-- The method `IpSecDatapath::Stop`. -/
def Stop (d : IpSecDatapath) : IpSecDatapath :=
  ShutdownIpSecPacketForwarder d

/-- The method `IpSecDatapath::SwitchNetwork`.  `PPN_RETURN_IF_ERROR(e)`
returns the status of `e` when it is not OK.  A socket the platform returned
that is not moved into `network_socket_` is destroyed on return.
`with_family` is the key material after the `if` on `ip_protocol()`, `none`
on the branch that returns `Internal`. -/
def SwitchNetwork (d : IpSecDatapath) (vpn_service_ : VpnServiceInterface)
    (session_id : Nat) (endpoint : Endpoint) (network_info : Option NetworkInfo)
    (_counter : Int) : Status × IpSecDatapath :=
  match network_info with
  | none => (InvalidArgumentError "network_info is unset", d)
  | some ni =>
    match vpn_service_.GetTunnel with
    | none => (InvalidArgumentError "tunnel is null", d)
    | some tunnel =>
      let d := ShutdownIpSecPacketForwarder d
      match d.key_material_ with
      | none => (FailedPreconditionError "Key Material is not set", d)
      | some km =>
        let km := { km with uplink_spi := session_id }
        let d := { d with key_material_ := some km }
        let d := d.emit (Event.createProtectedNetworkSocket ni endpoint)
        match vpn_service_.CreateProtectedNetworkSocket ni endpoint with
        | Except.error status =>
          (OkStatus, d.emit (Event.post (Notification.DatapathFailed status)))
        | Except.ok none => (InternalError "got a null network socket", d)
        | Except.ok (some network_socket) =>
          let network_fd := network_socket.GetFd
          let km := { km with network_id := ni.network_id,
                              network_fd := network_fd,
                              destination_address := endpoint.address,
                              destination_port := endpoint.port }
          let d := { d with key_material_ := some km }
          let with_family : Option IpSecTransformParams :=
            if endpoint.ip_protocol = IPProtocol.kIPv4 then
              let km := { km with destination_address_family := some AddressFamily.V4 }
              match d.config_.ipv4_keepalive_interval with
              | some interval =>
                some { km with keepalive_interval_seconds := interval.seconds }
              | none => some km
            else if endpoint.ip_protocol = IPProtocol.kIPv6 then
              let km := { km with destination_address_family := some AddressFamily.V6 }
              match d.config_.ipv6_keepalive_interval with
              | some interval =>
                some { km with keepalive_interval_seconds := interval.seconds }
              | none => some km
            else none
          match with_family with
          | none => (InternalError "unsupported address family for endpoint", d)
          | some km =>
            let d := { d with key_material_ := some km }
            let d := d.emit (Event.configureIpSec km)
            let status := vpn_service_.ConfigureIpSec km
            if !status.ok then (status, d)
            else
              let d := { d with network_socket_ := some network_socket }
              let forwarder : IpSecPacketForwarder :=
                { tunnel := tunnel, network_socket := network_socket, started := false }
              let forwarder := { forwarder with started := true }
              let d := { d with forwarder_ := some forwarder }
              (OkStatus, d.emit (Event.forwarderStart forwarder))

/-- The method `IpSecDatapath::SetKeyMaterials`. -/
def SetKeyMaterials (d : IpSecDatapath) (params : TransformParams) :
    Status × IpSecDatapath :=
  if !params.has_ipsec then
    (InvalidArgumentError "Received key material that is not of type IPSEC", d)
  else
    (OkStatus, { d with key_material_ := some params.get_ipsec })

/-- The method `IpSecDatapath::IpSecPacketForwarderFailed`. -/
def IpSecPacketForwarderFailed (d : IpSecDatapath) (status : Status) : IpSecDatapath :=
  (Stop d).emit (Event.post (Notification.DatapathFailed status))

/-- The method `IpSecDatapath::IpSecPacketForwarderPermanentFailure`. -/
def IpSecPacketForwarderPermanentFailure (d : IpSecDatapath) (status : Status) :
    IpSecDatapath :=
  (Stop d).emit (Event.post (Notification.DatapathPermanentFailure status))

/-- The method `IpSecDatapath::IpSecPacketForwarderConnected`. -/
def IpSecPacketForwarderConnected (d : IpSecDatapath) : IpSecDatapath :=
  d.emit (Event.post Notification.DatapathEstablished)

end IpSecDatapath

/-! ## Reading a trace -/

/-- The events a call appended: the trace after it without the trace before. -/
def callTrace (before after : IpSecDatapath) : List Event :=
  after.trace.drop before.trace.length

/-- The notifications posted to the notification thread, in order. -/
def posted : List Event → List Notification
  | [] => []
  | Event.post n :: es => n :: posted es
  | _ :: es => posted es

/-- The key material handed to `ConfigureIpSec`, in call order. -/
def configured : List Event → List IpSecTransformParams
  | [] => []
  | Event.configureIpSec p :: es => p :: configured es
  | _ :: es => configured es

/-- The forwarders on which `Start()` was called, in call order. -/
def forwardersStarted : List Event → List IpSecPacketForwarder
  | [] => []
  | Event.forwarderStart f :: es => f :: forwardersStarted es
  | _ :: es => forwardersStarted es

/-- The tunnels on which `Close()` was called, in call order. -/
def tunnelsClosed : List Event → List TunnelRef
  | [] => []
  | Event.tunnelClose t :: es => t :: tunnelsClosed es
  | _ :: es => tunnelsClosed es

/-- The events `ShutdownIpSecPacketForwarder` appends in a given state: the
forwarder's stop, then the socket's close, each when the object exists. -/
def shutdownEvents (d : IpSecDatapath) : List Event :=
  (match d.forwarder_ with
   | some f => [Event.forwarderStop f]
   | none => []) ++
  (match d.network_socket_ with
   | some s => [Event.socketClose s]
   | none => [])

/-- The key material `SwitchNetwork` has assembled when it calls
`ConfigureIpSec`, for an IPv4 or IPv6 endpoint: the stored material `km` with
the session id, the network, the new socket's fd, the destination and the
family written over it, and the keepalive of that family when the
configuration carries one. -/
def keyMaterialForConfigure (config : KryptonConfig) (km : IpSecTransformParams)
    (session_id : Nat) (endpoint : Endpoint) (network_info : NetworkInfo)
    (network_fd : Int) : IpSecTransformParams :=
  { km with
    uplink_spi := session_id
    network_id := network_info.network_id
    network_fd := network_fd
    destination_address := endpoint.address
    destination_port := endpoint.port
    destination_address_family :=
      if endpoint.ip_protocol = IPProtocol.kIPv4 then some AddressFamily.V4
      else some AddressFamily.V6
    keepalive_interval_seconds :=
      match (if endpoint.ip_protocol = IPProtocol.kIPv4 then config.ipv4_keepalive_interval
             else config.ipv6_keepalive_interval) with
      | some interval => interval.seconds
      | none => km.keepalive_interval_seconds }

/-! ## `absl::Duration` -/

namespace absl

/-- An `absl::Duration`, counted in its resolution, a quarter of a nanosecond.
A finite duration has a whole number of seconds that fits `int64_t`;
`InfiniteDuration()`, longer than every finite one, is the first count beyond
them. -/
structure Duration where
  ticks : Int
  deriving DecidableEq, Repr

/-- The function `absl::Seconds(n)`. -/
def Seconds (n : Int) : Duration := ⟨n * 4000000000⟩

/-- The function `absl::Hours(n)`. -/
def Hours (n : Int) : Duration := ⟨n * 14400000000000⟩

/-- The largest `int64_t`. -/
def kint64max : Int := 9223372036854775807

/-- The smallest `int64_t`. -/
def kint64min : Int := -9223372036854775808

/-- The function `absl::ToInt64Milliseconds`: the whole milliseconds of the
duration, the fraction truncated toward zero, saturated to `int64_t`. -/
def ToInt64Milliseconds (d : Duration) : Int :=
  let q := Int.tdiv d.ticks 4000000
  if kint64max < q then kint64max else if q < kint64min then kint64min else q

end absl

/-! ## The tunnel endpoint (`ipsec_tunnel.cc`)

`IpSecTunnel` becomes a record of its members and of the calls it has made on
the kernel and on its `EventsHelper` and `EventFd`.  What the kernel answers is
an argument of each method.  `EventsHelper` and `EventFd` are not part of the
sources under study: an event is known by what `FileFromEvent`,
`FileHasError` and `FileCanRead` say about it, the close event by its fd. -/

/-- The constant `kMaxPacketSize`. -/
def kMaxPacketSize : Nat := 4096

/-- The value of `errno` that says a call was interrupted. -/
def EINTR : Int := 4

/-- The release hook a `Packet` is constructed with: the empty lambda, or the
lambda that deletes the read buffer. -/
inductive PacketRelease where
  | nothing
  | deleteBuffer
  deriving DecidableEq, Repr

/-- The class `Packet`: the bytes it views, its protocol and its release
hook. -/
structure Packet where
  data : List Nat
  ip_protocol : IPProtocol
  release : PacketRelease
  deriving DecidableEq, Repr

/-- An `EventsHelper::Event`, by what `FileFromEvent`, `FileHasError` and
`FileCanRead` return for it. -/
structure EventsHelper.Event where
  file : Int
  has_error : Bool
  can_read : Bool
  deriving DecidableEq, Repr

/-- What `EventsHelper::Wait` answers: its status, and the out-parameters
`num_events` and `event`. -/
structure WaitResult where
  status : Status
  num_events : Int
  event : EventsHelper.Event
  deriving DecidableEq, Repr

/-- What one `read(2)` answers: the count returned, `errno`, and the buffer
as the kernel left it. -/
structure ReadResult where
  read_bytes : Int
  errno : Int
  buffer : List Nat
  deriving DecidableEq, Repr

/-- What one `write(2)` answers: the count returned and `errno`. -/
structure WriteResult where
  write_bytes : Int
  errno : Int
  deriving DecidableEq, Repr

/-- A call the tunnel makes on the kernel, the `EventsHelper`, the close
`EventFd` or the heap, as recorded in its trace. -/
inductive TunnelCall where
  | addFile (fd : Int)
  | removeFile (fd : Int)
  | close (fd : Int)
  | notify (value : Nat)
  | wait (timeout : Int)
  | newBuffer
  | deleteBuffer
  | read (fd : Int) (r : ReadResult)
  | write (fd : Int) (data : List Nat) (r : WriteResult)
  deriving DecidableEq, Repr

/-- The members of `IpSecTunnel` (`close_event_` by its fd), and the trace of
the calls it has made. -/
structure IpSecTunnel where
  tunnel_fd_ : Int
  keepalive_interval_millis_ : Int
  close_event_fd : Int
  calls : List TunnelCall
  deriving DecidableEq, Repr

/-- The environment of one `ReadPackets`: what `Wait` answers for a timeout,
whether another thread runs `Close()` to completion while this one is inside
`Wait`, and what the successive `read(2)` answer. -/
structure ReadEnv where
  wait : Int → WaitResult
  close_during_wait : Bool
  reads : List ReadResult

namespace IpSecTunnel

/-- Appends one call to the trace. -/
def record (t : IpSecTunnel) (c : TunnelCall) : IpSecTunnel :=
  { t with calls := t.calls ++ [c] }

/-- The constructor `IpSecTunnel::IpSecTunnel(tunnel_fd)`; the fd of the
close event it creates is `close_event_fd`. -/
def new (tunnel_fd : Int) (close_event_fd : Int) : IpSecTunnel :=
  { tunnel_fd_ := tunnel_fd, keepalive_interval_millis_ := -1,
    close_event_fd := close_event_fd, calls := [] }

/-- The method `IpSecTunnel::Close`.  `tunnel_fd_.exchange(-1)` stores `-1`
whatever was there.  The statuses of `RemoveFile` and `Notify` are only
logged. -/
def Close (t : IpSecTunnel) : Status × IpSecTunnel :=
  let fd := t.tunnel_fd_
  let t := { t with tunnel_fd_ := -1 }
  if fd < 0 then (OkStatus, t)
  else
    let t := t.record (TunnelCall.removeFile fd)
    let t := t.record (TunnelCall.close fd)
    let t := t.record (TunnelCall.notify 1)
    (OkStatus, t)

/-- The method `IpSecTunnel::CancelReadPackets`; `notify_status` is what
`close_event_.Notify(1)` returns. -/
def CancelReadPackets (t : IpSecTunnel) (notify_status : Status) : Status × IpSecTunnel :=
  (notify_status, t.record (TunnelCall.notify 1))

/-- The packet `ReadPackets` builds when its wait times out. -/
def keepalivePacket : Packet :=
  { data := [0xFF], ip_protocol := IPProtocol.kUnknown, release := PacketRelease.nothing }

/-- The loop `do read_bytes = read(fd, buffer, kMaxPacketSize) while
(read_bytes == -1 && errno == EINTR)` against the kernel's successive answers:
the calls made, and the answer that ended the loop, `none` when every answer
supplied was an interruption (the loop is still running). -/
def readRetry (fd : Int) : List ReadResult → List TunnelCall × Option ReadResult
  | [] => ([], none)
  | r :: rs =>
    if r.read_bytes = -1 ∧ r.errno = EINTR then
      (TunnelCall.read fd r :: (readRetry fd rs).1, (readRetry fd rs).2)
    else ([TunnelCall.read fd r], some r)

/-- The method `IpSecTunnel::ReadPackets`: what it returns, `none` while its
read loop has not ended on the answers supplied, and the tunnel with the calls
made.  The messages keep the format strings of the source, the fd and
`strerror(errno)` not substituted. -/
def ReadPackets (t : IpSecTunnel) (env : ReadEnv) :
    Option (Except Status (List Packet)) × IpSecTunnel :=
  if t.tunnel_fd_ < 0 then
    (some (Except.error (InternalError "Attempted to read on a closed fd.")), t)
  else
    let status := (env.wait t.keepalive_interval_millis_).status
    let num_events := (env.wait t.keepalive_interval_millis_).num_events
    let event := (env.wait t.keepalive_interval_millis_).event
    let t := t.record (TunnelCall.wait t.keepalive_interval_millis_)
    let t := if env.close_during_wait then (Close t).2 else t
    let fd := t.tunnel_fd_
    if !status.ok then
      (some (Except.error (InternalError "Failed to listen for events on fd $0: $1")), t)
    else if num_events = 0 then
      (some (Except.ok [keepalivePacket]), t)
    else
      let notified_fd := event.file
      if notified_fd = t.close_event_fd then
        (some (Except.ok []), t)
      else if event.has_error then
        (some (Except.error (InternalError "Read on fd $0 failed.")), t)
      else if event.can_read then
        if fd < 0 then
          (some (Except.error (InternalError "Attempted to read on a closed fd.")), t)
        else
          let t := t.record TunnelCall.newBuffer
          let t := { t with calls := t.calls ++ (readRetry fd env.reads).1 }
          match (readRetry fd env.reads).2 with
          | none => (none, t)
          | some r =>
            if r.read_bytes ≤ 0 then
              (some (Except.error (AbortedError "Reading from FD $0: $1")),
                t.record TunnelCall.deleteBuffer)
            else
              (some (Except.ok [{ data := r.buffer.take r.read_bytes.toNat,
                                  ip_protocol := IPProtocol.kUnknown,
                                  release := PacketRelease.deleteBuffer }]), t)
      else
        (some (Except.error (InternalError "Unexpected event occurred.")), t)

/-- The loop `do write_bytes = write(fd, data, size) while (write_bytes == -1
&& errno == EINTR)` for one packet against the kernel's successive answers:
the calls made, and the answer that ended the loop with the answers left,
`none` when every answer supplied was an interruption. -/
def writeRetry (fd : Int) (data : List Nat) :
    List WriteResult → List TunnelCall × Option (WriteResult × List WriteResult)
  | [] => ([], none)
  | r :: rs =>
    if r.write_bytes = -1 ∧ r.errno = EINTR then
      (TunnelCall.write fd data r :: (writeRetry fd data rs).1, (writeRetry fd data rs).2)
    else ([TunnelCall.write fd data r], some (r, rs))

/-- The `for` loop of `WritePackets` over the packets: the status returned,
`none` while a write loop has not ended, and the calls made.  The message
keeps the constant part of the source's, the fd and `strerror(errno)` not
appended. -/
def writeLoop (fd : Int) : List Packet → List WriteResult → Option Status × List TunnelCall
  | [], _ => (some OkStatus, [])
  | packet :: packets, writes =>
    match (writeRetry fd packet.data writes).2 with
    | none => (none, (writeRetry fd packet.data writes).1)
    | some (r, rest) =>
      if r.write_bytes ≠ (packet.data.length : Int) then
        (some (InternalError "Error writing to FD="), (writeRetry fd packet.data writes).1)
      else
        ((writeLoop fd packets rest).1,
          (writeRetry fd packet.data writes).1 ++ (writeLoop fd packets rest).2)

/-- The method `IpSecTunnel::WritePackets`; `writes` are the successive
answers of `write(2)`. -/
def WritePackets (t : IpSecTunnel) (packets : List Packet) (writes : List WriteResult) :
    Option Status × IpSecTunnel :=
  let fd := t.tunnel_fd_
  if fd < 0 then (some (InternalError "Attempted to write to a closed fd."), t)
  else
    ((writeLoop fd packets writes).1,
      { t with calls := t.calls ++ (writeLoop fd packets writes).2 })

/-- The method `IpSecTunnel::SetKeepaliveInterval`. -/
def SetKeepaliveInterval (t : IpSecTunnel) (keepalive_interval : absl.Duration) : IpSecTunnel :=
  let t := { t with keepalive_interval_millis_ := absl.ToInt64Milliseconds keepalive_interval }
  if t.keepalive_interval_millis_ ≤ 0 then { t with keepalive_interval_millis_ := -1 }
  else t

/-- The method `IpSecTunnel::IsKeepaliveEnabled`. -/
def IsKeepaliveEnabled (t : IpSecTunnel) : Bool :=
  t.keepalive_interval_millis_ != -1

/-- The method `IpSecTunnel::Init`; `add_tunnel_fd` and `add_close_event` are
what the two `AddFile` calls return. -/
def Init (t : IpSecTunnel) (add_tunnel_fd add_close_event : Status) : Status × IpSecTunnel :=
  let fd := t.tunnel_fd_
  let t := t.record (TunnelCall.addFile fd)
  let r : Status × IpSecTunnel :=
    if add_tunnel_fd.ok then (add_close_event, t.record (TunnelCall.addFile t.close_event_fd))
    else (add_tunnel_fd, t)
  if !r.1.ok then (r.1, (Close r.2).2)
  else (OkStatus, r.2)

/-- The function `IpSecTunnel::Create`: the constructor, then `Init`. -/
def Create (tunnel_fd close_event_fd : Int) (add_tunnel_fd add_close_event : Status) :
    Except Status IpSecTunnel :=
  let r := Init (new tunnel_fd close_event_fd) add_tunnel_fd add_close_event
  if !r.1.ok then Except.error r.1 else Except.ok r.2

end IpSecTunnel

/-- An operation on a tunnel, with what its environment answers. -/
inductive TunnelOp where
  | Close
  | CancelReadPackets (notify_status : Status)
  | ReadPackets (env : ReadEnv)
  | WritePackets (packets : List Packet) (writes : List WriteResult)
  | SetKeepaliveInterval (keepalive_interval : absl.Duration)

namespace IpSecTunnel

/-- The tunnel after one operation. -/
def step (t : IpSecTunnel) : TunnelOp → IpSecTunnel
  | TunnelOp.Close => (Close t).2
  | TunnelOp.CancelReadPackets notify_status => (CancelReadPackets t notify_status).2
  | TunnelOp.ReadPackets env => (ReadPackets t env).2
  | TunnelOp.WritePackets packets writes => (WritePackets t packets writes).2
  | TunnelOp.SetKeepaliveInterval keepalive_interval =>
    SetKeepaliveInterval t keepalive_interval

/-- The tunnel after a sequence of operations. -/
def run (t : IpSecTunnel) (ops : List TunnelOp) : IpSecTunnel :=
  ops.foldl step t

/-- The calls a method appended: the trace after it without the trace
before. -/
def callsSince (before after : IpSecTunnel) : List TunnelCall :=
  after.calls.drop before.calls.length

end IpSecTunnel

/-- The timeouts of the `Wait` calls among some calls, in order. -/
def waitsIssued : List TunnelCall → List Int
  | [] => []
  | TunnelCall.wait timeout :: cs => timeout :: waitsIssued cs
  | _ :: cs => waitsIssued cs

/-- The answers of the `read(2)` calls among some calls, in order. -/
def readsIssued : List TunnelCall → List ReadResult
  | [] => []
  | TunnelCall.read _ r :: cs => r :: readsIssued cs
  | _ :: cs => readsIssued cs

/-- The `write(2)` calls among some calls, in order: the bytes offered and
the answer. -/
def writesIssued : List TunnelCall → List (List Nat × WriteResult)
  | [] => []
  | TunnelCall.write _ data r :: cs => (data, r) :: writesIssued cs
  | _ :: cs => writesIssued cs

/-- The `write(2)` calls that wrote the whole of what was offered. -/
def fullWrites (cs : List TunnelCall) : List (List Nat × WriteResult) :=
  (writesIssued cs).filter (fun w => w.2.write_bytes = (w.1.length : Int))

/-- Whether an answer of `write(2)` makes the loop try again. -/
def WriteResult.interrupted (r : WriteResult) : Prop :=
  r.write_bytes = -1 ∧ r.errno = EINTR

instance (r : WriteResult) : Decidable r.interrupted :=
  inferInstanceAs (Decidable (r.write_bytes = -1 ∧ r.errno = EINTR))

/-- The least size of a raw IP packet: an IPv4 header without options. -/
def kMinIpPacketSize : Nat := 20

/-- An answer of `read(2)` on the tunnel fd is what a TUN device gives: when
it returns data, the data are one raw IP packet, so at least the bytes of an
IP header, all of them in the buffer. -/
def ReadResult.carriesIpPacket (r : ReadResult) : Prop :=
  0 < r.read_bytes → kMinIpPacketSize ≤ (r.buffer.take r.read_bytes.toNat).length

instance (r : ReadResult) : Decidable r.carriesIpPacket :=
  inferInstanceAs
    (Decidable (0 < r.read_bytes → kMinIpPacketSize ≤ (r.buffer.take r.read_bytes.toNat).length))

/-- Whether an answer of `read(2)` makes the loop try again. -/
def ReadResult.interrupted (r : ReadResult) : Prop :=
  r.read_bytes = -1 ∧ r.errno = EINTR

instance (r : ReadResult) : Decidable r.interrupted :=
  inferInstanceAs (Decidable (r.read_bytes = -1 ∧ r.errno = EINTR))

/-- The kernel's answers to the write of one packet, some interruptions and
a last answer, are what the retry loop consumes: each of the first is an
interruption and the last is not. -/
def answersWrite (a : List WriteResult × WriteResult) : Prop :=
  (∀ r ∈ a.1, r.interrupted) ∧ ¬ a.2.interrupted

/-- The kernel's answers to the write of `packet` end with the whole packet
written. -/
def writesWhole (packet : Packet) (a : List WriteResult × WriteResult) : Prop :=
  answersWrite a ∧ a.2.write_bytes = (packet.data.length : Int)

instance (a : List WriteResult × WriteResult) : Decidable (answersWrite a) :=
  inferInstanceAs (Decidable ((∀ r ∈ a.1, r.interrupted) ∧ ¬ a.2.interrupted))

instance (packet : Packet) (a : List WriteResult × WriteResult) :
    Decidable (writesWhole packet a) :=
  inferInstanceAs (Decidable (answersWrite a ∧ a.2.write_bytes = (packet.data.length : Int)))

/-- The `write(2)` calls for one packet when the kernel first answers
`interruptions` and then `last`. -/
def writeAttempts (fd : Int) (packet : Packet) (interruptions : List WriteResult)
    (last : WriteResult) : List TunnelCall :=
  (interruptions ++ [last]).map (TunnelCall.write fd packet.data)

/-- The kernel's successive answers when it answers each packet's write with
some interruptions and then a last answer. -/
def flattenAnswers : List (List WriteResult × WriteResult) → List WriteResult
  | [] => []
  | a :: rest => a.1 ++ a.2 :: flattenAnswers rest

/-- The `write(2)` calls for a list of packets, each with the kernel's
answers to it, in list order. -/
def allWriteAttempts (fd : Int) :
    List Packet → List (List WriteResult × WriteResult) → List TunnelCall
  | packet :: packets, a :: rest =>
    writeAttempts fd packet a.1 a.2 ++ allWriteAttempts fd packets rest
  | _, _ => []

/-! ## The platform binding (`vpn_service.cc`) -/

/-- The constant `kDefaultIpv4KeepaliveInterval`. -/
def kDefaultIpv4KeepaliveInterval : absl.Duration := absl.Seconds 20

/-- The constant `kDefaultIpv6KeepaliveInterval`. -/
def kDefaultIpv6KeepaliveInterval : absl.Duration := absl.Hours 1

/-- The members of `VpnService` that its methods under study read or write. -/
structure VpnService where
  keepalive_interval_ipv4_ : absl.Duration
  keepalive_interval_ipv6_ : absl.Duration
  tunnel_ : Option IpSecTunnel
  tunnel_fd_ : Int
  deriving DecidableEq, Repr

/-- Modelled from the spec: the constructor of `IpSecDatapath` is declared in
a header that is not among the sources.  The datapath starts idle: it keeps
the configuration it is given and holds no key material, no network socket
and no forwarder. -/
def IpSecDatapath.new (config : KryptonConfig) : IpSecDatapath :=
  { config_ := config, key_material_ := none, network_socket_ := none,
    forwarder_ := none, trace := [] }

/-- The method `VpnService::BuildDatapath`.  `DurationFromProto` is
`utils::DurationFromProto`, which is not among the sources.  The source has no
`return` for a protocol other than `IPSEC`: `none`. -/
def VpnService.BuildDatapath (v : VpnService) (config : KryptonConfig)
    (DurationFromProto : Duration → Except Status absl.Duration) :
    Option IpSecDatapath × VpnService :=
  let v := { v with keepalive_interval_ipv4_ := kDefaultIpv4KeepaliveInterval }
  let v :=
    match config.ipv4_keepalive_interval with
    | some interval =>
      match DurationFromProto interval with
      | Except.ok keepalive => { v with keepalive_interval_ipv4_ := keepalive }
      | Except.error _ => v
    | none => v
  let v := { v with keepalive_interval_ipv6_ := kDefaultIpv6KeepaliveInterval }
  let v :=
    match config.ipv6_keepalive_interval with
    | some interval =>
      match DurationFromProto interval with
      | Except.ok keepalive => { v with keepalive_interval_ipv6_ := keepalive }
      | Except.error _ => v
    | none => v
  if config.datapath_protocol = DatapathProtocol.IPSEC then
    (some (IpSecDatapath.new config), v)
  else (none, v)

/-! ## Debug info of the datapath -/

/-- The message `DatapathDebugInfo`.  Its declaration is not among the
sources: it is kept as the fields that are set, by name. -/
structure DatapathDebugInfo where
  fields : List (String × Int)
  deriving DecidableEq, Repr

/-- The method `IpSecDatapath::GetDebugInfo`, as the debug info it leaves in
`*debug_info`.  `forwarder_GetDebugInfo` is `IpSecPacketForwarder::GetDebugInfo`,
which is not among the sources; the forwarder was constructed from the tunnel
and the socket only. -/
def IpSecDatapath.GetDebugInfo (d : IpSecDatapath)
    (forwarder_GetDebugInfo : IpSecPacketForwarder → DatapathDebugInfo → DatapathDebugInfo)
    (debug_info : DatapathDebugInfo) : DatapathDebugInfo :=
  match d.forwarder_ with
  | some forwarder => forwarder_GetDebugInfo forwarder debug_info
  | none => debug_info

/-! ## Sequences of calls on the datapath -/

/-- A call on the datapath: a method of `DatapathInterface` or a callback of
the forwarder, with its arguments and, for `SwitchNetwork`, what the platform
answers during the call. -/
inductive DatapathOp where
  | Start (egress_response : AddEgressResponse) (params : TransformParams)
  | SetKeyMaterials (params : TransformParams)
  | SwitchNetwork (vpn_service : VpnServiceInterface) (session_id : Nat) (endpoint : Endpoint)
      (network_info : Option NetworkInfo) (counter : Int)
  | Stop
  | IpSecPacketForwarderFailed (status : Status)
  | IpSecPacketForwarderPermanentFailure (status : Status)
  | IpSecPacketForwarderConnected

namespace IpSecDatapath

/-- The datapath after one call. -/
def perform (d : IpSecDatapath) : DatapathOp → IpSecDatapath
  | DatapathOp.Start egress_response params => (d.Start egress_response params).2
  | DatapathOp.SetKeyMaterials params => (d.SetKeyMaterials params).2
  | DatapathOp.SwitchNetwork vpn_service session_id endpoint network_info counter =>
    (d.SwitchNetwork vpn_service session_id endpoint network_info counter).2
  | DatapathOp.Stop => d.Stop
  | DatapathOp.IpSecPacketForwarderFailed status => d.IpSecPacketForwarderFailed status
  | DatapathOp.IpSecPacketForwarderPermanentFailure status =>
    d.IpSecPacketForwarderPermanentFailure status
  | DatapathOp.IpSecPacketForwarderConnected => d.IpSecPacketForwarderConnected

/-- The datapath after a sequence of calls. -/
def performAll (d : IpSecDatapath) (ops : List DatapathOp) : IpSecDatapath :=
  ops.foldl perform d

end IpSecDatapath

/-! ## The protected network socket (`vpn_service.cc`) -/

/-- What the JVM and the kernel answer during one
`VpnService::CreateProtectedNetworkSocket`: whether `GetJavaEnv()` has a
value, the `jint` the Java method returns, what `DatagramSocket::Create`
returns for an fd, and what `Connect` returns. -/
structure SocketEnv where
  java_env : Bool
  network_fd : Int
  create : Int → Except Status IpSecSocket
  connect : Status

/-- A call `VpnService` makes on the socket it has created. -/
inductive SocketCall where
  | connect (socket : IpSecSocket) (endpoint : Endpoint)
  | close (socket : IpSecSocket)
  deriving DecidableEq, Repr

namespace VpnService

/-- The overload `VpnService::CreateProtectedNetworkSocket(network_info)`,
which returns the fd.  The message keeps the constant part of the source's. -/
def CreateProtectedNetworkSocket_fd (env : SocketEnv) (_network_info : NetworkInfo) :
    Except Status Int :=
  if !env.java_env then
    Except.error ⟨StatusCode.kInternal, "Unable to get Java Env"⟩
  else if env.network_fd < 0 then
    Except.error ⟨StatusCode.kUnavailable, "Unable to create network fd: "⟩
  else Except.ok env.network_fd

/-- The method `VpnService::CreateProtectedNetworkSocket(network_info,
endpoint)`: what it returns, the service after it and the calls made on the
new socket.  `PPN_ASSIGN_OR_RETURN` returns the status of a `StatusOr` that is
not OK.  `tunnel_` is dereferenced without a check: `none` when it is null. -/
def CreateProtectedNetworkSocket (v : VpnService) (env : SocketEnv)
    (network_info : NetworkInfo) (endpoint : Endpoint) :
    Option (Except Status IpSecSocket × VpnService × List SocketCall) :=
  match CreateProtectedNetworkSocket_fd env network_info with
  | Except.error status => some (Except.error status, v, [])
  | Except.ok fd =>
    match env.create fd with
    | Except.error status => some (Except.error status, v, [])
    | Except.ok socket =>
      let status := env.connect
      match v.tunnel_ with
      | none => none
      | some tunnel =>
        let tunnel :=
          if endpoint.ip_protocol = IPProtocol.kIPv4 then
            tunnel.SetKeepaliveInterval v.keepalive_interval_ipv4_
          else
            tunnel.SetKeepaliveInterval v.keepalive_interval_ipv6_
        let v := { v with tunnel_ := some tunnel }
        if !status.ok then
          some (Except.error status, v,
            [SocketCall.connect socket endpoint, SocketCall.close socket])
        else
          some (Except.ok socket, v, [SocketCall.connect socket endpoint])

end VpnService

/-! ## Sample inputs -/

/-- Key material as a session start delivers it: SPIs and keys, nothing yet
about the network. -/
def sampleKeyMaterial : IpSecTransformParams :=
  { IpSecTransformParams.default_instance with
    uplink_spi := 1, downlink_spi := 2, uplink_key := [1, 2, 3], downlink_key := [4, 5, 6] }

/-- Key material of a rekey: new SPIs and keys. -/
def rekeyedKeyMaterial : IpSecTransformParams :=
  { IpSecTransformParams.default_instance with
    uplink_spi := 7, downlink_spi := 8, uplink_key := [9, 9], downlink_key := [8, 8] }

/-- A configuration carrying both keepalive intervals. -/
def sampleConfig : KryptonConfig :=
  { ipv4_keepalive_interval := some ⟨20, 0⟩, ipv6_keepalive_interval := some ⟨3600, 0⟩ }

/-- A datapath on which nothing has been called. -/
def idleDatapath : IpSecDatapath :=
  { config_ := sampleConfig, key_material_ := none, network_socket_ := none,
    forwarder_ := none, trace := [] }

/-- A datapath holding key material and nothing else. -/
def keyedDatapath : IpSecDatapath :=
  { idleDatapath with key_material_ := some sampleKeyMaterial }

/-- A datapath with a running forwarder over socket fd 42. -/
def forwardingDatapath : IpSecDatapath :=
  { keyedDatapath with
    network_socket_ := some ⟨42⟩, forwarder_ := some ⟨⟨0⟩, ⟨42⟩, true⟩ }

/-- An IPv4 endpoint. -/
def endpointV4 : Endpoint := ⟨"192.0.2.1", 2153, IPProtocol.kIPv4⟩

/-- An endpoint whose protocol is neither IPv4 nor IPv6. -/
def endpointUnknown : Endpoint := ⟨"egress.example", 2153, IPProtocol.kUnknown⟩

/-- A network. -/
def networkN1 : NetworkInfo := ⟨100⟩

/-- The status `VpnService::CreateProtectedNetworkSocket` returns for a
negative fd. -/
def noNetworkFd : Status := ⟨StatusCode.kUnavailable, "Unable to create network fd: -1"⟩

/-- The status `VpnService::ConfigureIpSec` returns when the transform is
refused. -/
def transformRefused : Status :=
  ⟨StatusCode.kUnavailable, "Error encountered when applying transform to fd: 43"⟩

/-- A platform on which everything succeeds; the new socket has fd 43. -/
def workingPlatform : VpnServiceInterface :=
  { GetTunnel := some ⟨0⟩
    CreateProtectedNetworkSocket := fun _ _ => Except.ok (some ⟨43⟩)
    ConfigureIpSec := fun _ => OkStatus }

/-- A platform that cannot create the protected socket. -/
def socketFailingPlatform : VpnServiceInterface :=
  { workingPlatform with CreateProtectedNetworkSocket := fun _ _ => Except.error noNetworkFd }

/-- A platform that refuses the IPsec transform. -/
def transformRefusingPlatform : VpnServiceInterface :=
  { workingPlatform with ConfigureIpSec := fun _ => transformRefused }

/-- A platform without a tunnel. -/
def tunnelLessPlatform : VpnServiceInterface :=
  { workingPlatform with GetTunnel := none }

/-- An open tunnel on fd 5, its close event on fd 9, keepalive disabled. -/
def openTunnel : IpSecTunnel := IpSecTunnel.new 5 9

/-- An open tunnel with a keepalive of 20 seconds. -/
def keepaliveTunnel : IpSecTunnel :=
  openTunnel.SetKeepaliveInterval (absl.Seconds 20)

/-- A `Wait` that succeeds with no event: the timeout expired. -/
def waitTimedOut : WaitResult :=
  { status := OkStatus, num_events := 0, event := ⟨0, false, false⟩ }

/-- A `Wait` that reports the close event (fd 9), with every flag set. -/
def waitCloseEvent : WaitResult :=
  { status := OkStatus, num_events := 1, event := ⟨9, true, true⟩ }

/-- A `Wait` that reports the tunnel fd (fd 5) readable. -/
def waitReadable : WaitResult :=
  { status := OkStatus, num_events := 1, event := ⟨5, false, true⟩ }

/-- An answer of `read(2)` or `write(2)`: interrupted. -/
def readInterrupted : ReadResult := { read_bytes := -1, errno := EINTR, buffer := [] }

/-- An answer of `read(2)`: end of file. -/
def readNothing : ReadResult := { read_bytes := 0, errno := 0, buffer := [] }

/-- A read environment in which the timeout expires when there is one, and
the tunnel fd is readable otherwise; the read is interrupted once and then
returns nothing. -/
def timingOutEnv : ReadEnv :=
  { wait := fun timeout => if 0 ≤ timeout then waitTimedOut else waitReadable
    close_during_wait := false
    reads := [readInterrupted, readNothing] }

/-- A read environment in which another thread closes the tunnel during the
wait, which then reports the close event. -/
def closingEnv : ReadEnv :=
  { wait := fun _ => waitCloseEvent, close_during_wait := true, reads := [] }

/-- A read environment in which the tunnel fd is readable and the read fails
after one interruption. -/
def failingReadEnv : ReadEnv :=
  { wait := fun _ => waitReadable, close_during_wait := false,
    reads := [readInterrupted, readNothing] }

/-- Three packets. -/
def packetFoo : Packet := ⟨[102, 111, 111], IPProtocol.kIPv6, PacketRelease.nothing⟩

/-- A second packet. -/
def packetBar : Packet := ⟨[98, 97], IPProtocol.kIPv6, PacketRelease.nothing⟩

/-- A third packet. -/
def packetBaz : Packet := ⟨[98, 97, 122, 33], IPProtocol.kIPv4, PacketRelease.nothing⟩

/-- An answer of `write(2)`: interrupted. -/
def writeInterrupted : WriteResult := { write_bytes := -1, errno := EINTR }

/-- An answer of `write(2)`: `n` bytes written. -/
def wrote (n : Int) : WriteResult := { write_bytes := n, errno := 0 }

/-- An IPv6 endpoint. -/
def endpointV6 : Endpoint := ⟨"2001:db8::1", 2153, IPProtocol.kIPv6⟩

/-- A configuration that carries the IPv4 keepalive interval only. -/
def configV4Only : KryptonConfig :=
  { ipv4_keepalive_interval := some ⟨20, 0⟩, ipv6_keepalive_interval := none }

/-- A session: a start, a switch on a working platform, a rekey, a switch
that the platform refuses, and a stop. -/
def sampleSession : List DatapathOp :=
  [DatapathOp.Start ⟨""⟩ (TransformParams.ipsec sampleKeyMaterial),
   DatapathOp.SwitchNetwork workingPlatform 10 endpointV4 (some networkN1) 0,
   DatapathOp.SetKeyMaterials (TransformParams.ipsec rekeyedKeyMaterial),
   DatapathOp.SwitchNetwork transformRefusingPlatform 11 endpointV4 (some networkN1) 1,
   DatapathOp.Stop]

/-- A keyed datapath whose configuration carries the IPv4 keepalive interval
only. -/
def v4OnlyDatapath : IpSecDatapath :=
  { keyedDatapath with config_ := configV4Only }

/-- That datapath after a switch to the IPv4 endpoint on a working
platform. -/
def v4OnlySwitchedToV4 : IpSecDatapath :=
  (v4OnlyDatapath.SwitchNetwork workingPlatform 10 endpointV4 (some networkN1) 0).2

/-- A session that ends stopped: a start, a switch on a working platform, a
stop. -/
def stoppedSession : List DatapathOp :=
  [DatapathOp.Start ⟨""⟩ (TransformParams.ipsec sampleKeyMaterial),
   DatapathOp.SwitchNetwork workingPlatform 10 endpointV4 (some networkN1) 0,
   DatapathOp.Stop]

/-- An empty debug info. -/
def emptyDebugInfo : DatapathDebugInfo := ⟨[]⟩

/-- A forwarder that reports two packet counters. -/
def sampleForwarderDebugInfo (_forwarder : IpSecPacketForwarder)
    (debug_info : DatapathDebugInfo) : DatapathDebugInfo :=
  ⟨debug_info.fields ++ [("uplink_packets_read", 12), ("downlink_packets_read", 34)]⟩

/-- An answer of `read(2)`: an IPv4 header of 20 bytes and nothing after
it. -/
def readIpPacket : ReadResult :=
  { read_bytes := 20, errno := 0,
    buffer := [0x45, 0, 0, 20, 0, 0, 0, 0, 64, 17, 0, 0, 192, 0, 2, 1, 192, 0, 2, 2] }

/-- A read environment of a TUN device: the timeout expires when there is
one, the tunnel fd is readable otherwise, and the read returns an IP
packet. -/
def ipPacketEnv : ReadEnv :=
  { wait := fun timeout => if 0 ≤ timeout then waitTimedOut else waitReadable
    close_during_wait := false
    reads := [readIpPacket] }

end Krypton

namespace Krypton

open IpSecDatapath

/-! ## Lemmas on the teardown -/

theorem shutdown_forwarder (d : IpSecDatapath) :
    (ShutdownIpSecPacketForwarder d).forwarder_ = none := by
  cases hf : d.forwarder_ <;> cases hs : d.network_socket_ <;>
    simp [ShutdownIpSecPacketForwarder, emit, hf, hs]

theorem shutdown_network_socket (d : IpSecDatapath) :
    (ShutdownIpSecPacketForwarder d).network_socket_ = none := by
  cases hf : d.forwarder_ <;> cases hs : d.network_socket_ <;>
    simp [ShutdownIpSecPacketForwarder, emit, hf, hs]

theorem shutdown_key_material (d : IpSecDatapath) :
    (ShutdownIpSecPacketForwarder d).key_material_ = d.key_material_ := by
  cases hf : d.forwarder_ <;> cases hs : d.network_socket_ <;>
    simp [ShutdownIpSecPacketForwarder, emit, hf, hs]

theorem shutdown_config (d : IpSecDatapath) :
    (ShutdownIpSecPacketForwarder d).config_ = d.config_ := by
  cases hf : d.forwarder_ <;> cases hs : d.network_socket_ <;>
    simp [ShutdownIpSecPacketForwarder, emit, hf, hs]

theorem shutdown_trace (d : IpSecDatapath) :
    (ShutdownIpSecPacketForwarder d).trace = d.trace ++ shutdownEvents d := by
  cases hf : d.forwarder_ <;> cases hs : d.network_socket_ <;>
    simp [ShutdownIpSecPacketForwarder, emit, shutdownEvents, hf, hs]

theorem callTrace_of_append (before after : IpSecDatapath) (es : List Event)
    (h : after.trace = before.trace ++ es) : callTrace before after = es := by
  simp [callTrace, h]

theorem posted_append (xs ys : List Event) : posted (xs ++ ys) = posted xs ++ posted ys := by
  induction xs with
  | nil => simp [posted]
  | cons x xs ih => cases x <;> simp [posted, ih]

theorem configured_append (xs ys : List Event) :
    configured (xs ++ ys) = configured xs ++ configured ys := by
  induction xs with
  | nil => simp [configured]
  | cons x xs ih => cases x <;> simp [configured, ih]

theorem forwardersStarted_append (xs ys : List Event) :
    forwardersStarted (xs ++ ys) = forwardersStarted xs ++ forwardersStarted ys := by
  induction xs with
  | nil => simp [forwardersStarted]
  | cons x xs ih => cases x <;> simp [forwardersStarted, ih]

theorem tunnelsClosed_append (xs ys : List Event) :
    tunnelsClosed (xs ++ ys) = tunnelsClosed xs ++ tunnelsClosed ys := by
  induction xs with
  | nil => simp [tunnelsClosed]
  | cons x xs ih => cases x <;> simp [tunnelsClosed, ih]

theorem forwardersStarted_shutdownEvents (d : IpSecDatapath) :
    forwardersStarted (shutdownEvents d) = [] := by
  cases hf : d.forwarder_ <;> cases hs : d.network_socket_ <;>
    simp [shutdownEvents, forwardersStarted, hf, hs]

theorem tunnelsClosed_shutdownEvents (d : IpSecDatapath) :
    tunnelsClosed (shutdownEvents d) = [] := by
  cases hf : d.forwarder_ <;> cases hs : d.network_socket_ <;>
    simp [shutdownEvents, tunnelsClosed, hf, hs]

theorem posted_shutdownEvents (d : IpSecDatapath) : posted (shutdownEvents d) = [] := by
  cases hf : d.forwarder_ <;> cases hs : d.network_socket_ <;>
    simp [shutdownEvents, posted, hf, hs]

theorem configured_shutdownEvents (d : IpSecDatapath) :
    configured (shutdownEvents d) = [] := by
  cases hf : d.forwarder_ <;> cases hs : d.network_socket_ <;>
    simp [shutdownEvents, configured, hf, hs]

theorem shutdown_eq (d : IpSecDatapath) :
    ShutdownIpSecPacketForwarder d =
      { d with network_socket_ := none, forwarder_ := none,
               trace := d.trace ++ shutdownEvents d } := by
  cases d with
  | mk config key socket forwarder trace =>
    cases forwarder <;> cases socket <;>
      simp [ShutdownIpSecPacketForwarder, emit, shutdownEvents]

/-! ## The paths through `SwitchNetwork` -/

theorem SwitchNetwork_no_network_info (d : IpSecDatapath) (vpn : VpnServiceInterface)
    (sid : Nat) (ep : Endpoint) (c : Int) :
    d.SwitchNetwork vpn sid ep none c =
      (InvalidArgumentError "network_info is unset", d) := rfl

theorem SwitchNetwork_null_tunnel (d : IpSecDatapath) (vpn : VpnServiceInterface)
    (sid : Nat) (ep : Endpoint) (n : NetworkInfo) (c : Int)
    (ht : vpn.GetTunnel = none) :
    d.SwitchNetwork vpn sid ep (some n) c = (InvalidArgumentError "tunnel is null", d) := by
  simp [SwitchNetwork, ht]

theorem SwitchNetwork_no_key_material (d : IpSecDatapath) (vpn : VpnServiceInterface)
    (sid : Nat) (ep : Endpoint) (n : NetworkInfo) (c : Int) (t : TunnelRef)
    (ht : vpn.GetTunnel = some t) (hk : d.key_material_ = none) :
    d.SwitchNetwork vpn sid ep (some n) c =
      (FailedPreconditionError "Key Material is not set",
        { d with network_socket_ := none, forwarder_ := none,
                 trace := d.trace ++ shutdownEvents d }) := by
  simp [SwitchNetwork, ht, shutdown_eq, hk]

theorem SwitchNetwork_socket_error (d : IpSecDatapath) (vpn : VpnServiceInterface)
    (sid : Nat) (ep : Endpoint) (n : NetworkInfo) (c : Int) (t : TunnelRef)
    (km : IpSecTransformParams) (s : Status)
    (ht : vpn.GetTunnel = some t) (hk : d.key_material_ = some km)
    (hs : vpn.CreateProtectedNetworkSocket n ep = Except.error s) :
    d.SwitchNetwork vpn sid ep (some n) c =
      (OkStatus,
        { d with key_material_ := some { km with uplink_spi := sid },
                 network_socket_ := none, forwarder_ := none,
                 trace := d.trace ++ shutdownEvents d ++
                   [Event.createProtectedNetworkSocket n ep,
                    Event.post (Notification.DatapathFailed s)] }) := by
  simp [SwitchNetwork, ht, shutdown_eq, hk, hs, emit]

theorem SwitchNetwork_null_socket (d : IpSecDatapath) (vpn : VpnServiceInterface)
    (sid : Nat) (ep : Endpoint) (n : NetworkInfo) (c : Int) (t : TunnelRef)
    (km : IpSecTransformParams)
    (ht : vpn.GetTunnel = some t) (hk : d.key_material_ = some km)
    (hs : vpn.CreateProtectedNetworkSocket n ep = Except.ok none) :
    d.SwitchNetwork vpn sid ep (some n) c =
      (InternalError "got a null network socket",
        { d with key_material_ := some { km with uplink_spi := sid },
                 network_socket_ := none, forwarder_ := none,
                 trace := d.trace ++ shutdownEvents d ++
                   [Event.createProtectedNetworkSocket n ep] }) := by
  simp [SwitchNetwork, ht, shutdown_eq, hk, hs, emit]

theorem SwitchNetwork_unsupported_family (d : IpSecDatapath) (vpn : VpnServiceInterface)
    (sid : Nat) (ep : Endpoint) (n : NetworkInfo) (c : Int) (t : TunnelRef)
    (km : IpSecTransformParams) (sock : IpSecSocket)
    (ht : vpn.GetTunnel = some t) (hk : d.key_material_ = some km)
    (hs : vpn.CreateProtectedNetworkSocket n ep = Except.ok (some sock))
    (h4 : ep.ip_protocol ≠ IPProtocol.kIPv4) (h6 : ep.ip_protocol ≠ IPProtocol.kIPv6) :
    d.SwitchNetwork vpn sid ep (some n) c =
      (InternalError "unsupported address family for endpoint",
        { d with key_material_ :=
                   some { km with uplink_spi := sid, network_id := n.network_id,
                                  network_fd := sock.fd,
                                  destination_address := ep.address,
                                  destination_port := ep.port },
                 network_socket_ := none, forwarder_ := none,
                 trace := d.trace ++ shutdownEvents d ++
                   [Event.createProtectedNetworkSocket n ep] }) := by
  simp [SwitchNetwork, ht, shutdown_eq, hk, hs, emit, h4, h6, IpSecSocket.GetFd]

theorem SwitchNetwork_configure (d : IpSecDatapath) (vpn : VpnServiceInterface)
    (sid : Nat) (ep : Endpoint) (n : NetworkInfo) (c : Int) (t : TunnelRef)
    (km : IpSecTransformParams) (sock : IpSecSocket)
    (ht : vpn.GetTunnel = some t) (hk : d.key_material_ = some km)
    (hs : vpn.CreateProtectedNetworkSocket n ep = Except.ok (some sock))
    (hp : ep.ip_protocol = IPProtocol.kIPv4 ∨ ep.ip_protocol = IPProtocol.kIPv6) :
    d.SwitchNetwork vpn sid ep (some n) c =
      if (vpn.ConfigureIpSec (keyMaterialForConfigure d.config_ km sid ep n sock.fd)).ok then
        (OkStatus,
          { d with key_material_ := some (keyMaterialForConfigure d.config_ km sid ep n sock.fd),
                   network_socket_ := some sock,
                   forwarder_ := some ⟨t, sock, true⟩,
                   trace := d.trace ++ shutdownEvents d ++
                     [Event.createProtectedNetworkSocket n ep,
                      Event.configureIpSec (keyMaterialForConfigure d.config_ km sid ep n sock.fd),
                      Event.forwarderStart ⟨t, sock, true⟩] })
      else
        (vpn.ConfigureIpSec (keyMaterialForConfigure d.config_ km sid ep n sock.fd),
          { d with key_material_ := some (keyMaterialForConfigure d.config_ km sid ep n sock.fd),
                   network_socket_ := none, forwarder_ := none,
                   trace := d.trace ++ shutdownEvents d ++
                     [Event.createProtectedNetworkSocket n ep,
                      Event.configureIpSec
                        (keyMaterialForConfigure d.config_ km sid ep n sock.fd)] }) := by
  rcases hp with hp | hp
  · cases hc : d.config_.ipv4_keepalive_interval <;>
      (simp [SwitchNetwork, ht, shutdown_eq, hk, hs, emit, hp, hc, IpSecSocket.GetFd,
        keyMaterialForConfigure]
       split_ifs <;> simp_all)
  · cases hc : d.config_.ipv6_keepalive_interval <;>
      (simp [SwitchNetwork, ht, shutdown_eq, hk, hs, emit, hp, hc, IpSecSocket.GetFd,
        keyMaterialForConfigure]
       split_ifs <;> simp_all)

/-! ## C1: key material after a successful `SwitchNetwork` -/

/-- C1, counterexample.  With key material stored and a platform that cannot
create the protected socket, `SwitchNetwork` returns OK (the failure goes out
as a notification), and the stored key material has the session id but not
the endpoint: its destination address is still the empty one. -/
theorem C1_counterexample :
    (keyedDatapath.SwitchNetwork socketFailingPlatform 10 endpointV4 (some networkN1) 0).1.ok
        = true ∧
      ¬ ∃ km,
        (keyedDatapath.SwitchNetwork socketFailingPlatform 10 endpointV4
            (some networkN1) 0).2.key_material_ = some km ∧
          km.uplink_spi = 10 ∧
          km.destination_address = endpointV4.address ∧
          km.destination_port = endpointV4.port := by
  rw [SwitchNetwork_socket_error keyedDatapath socketFailingPlatform 10 endpointV4 networkN1 0
    ⟨0⟩ sampleKeyMaterial noNetworkFd rfl rfl rfl]
  refine ⟨rfl, ?_⟩
  rintro ⟨km, hkm, -, haddr, -⟩
  simp only [Option.some.injEq] at hkm
  subst hkm
  simp [sampleKeyMaterial, IpSecTransformParams.default_instance, endpointV4] at haddr

/-- C1, amended.  Whenever `SwitchNetwork` returns OK, key material is stored
and its `uplink_spi` is the session id; when moreover the platform's
`CreateProtectedNetworkSocket` succeeded in that call, the stored destination
address and port are the endpoint's. -/
theorem C1_SwitchNetwork_ok_key_material (d : IpSecDatapath) (vpn : VpnServiceInterface)
    (session_id : Nat) (endpoint : Endpoint) (network_info : Option NetworkInfo) (counter : Int)
    (hok : (d.SwitchNetwork vpn session_id endpoint network_info counter).1.ok = true) :
    ∃ km,
      (d.SwitchNetwork vpn session_id endpoint network_info counter).2.key_material_ = some km ∧
        km.uplink_spi = session_id ∧
        ((∃ n sock, network_info = some n ∧
            vpn.CreateProtectedNetworkSocket n endpoint = Except.ok sock) →
          km.destination_address = endpoint.address ∧
            km.destination_port = endpoint.port) := by
  cases network_info with
  | none => simp [SwitchNetwork_no_network_info, InvalidArgumentError, Status.ok] at hok
  | some n =>
    cases ht : vpn.GetTunnel with
    | none => simp [SwitchNetwork_null_tunnel _ _ _ _ _ _ ht, InvalidArgumentError, Status.ok] at hok
    | some t =>
      cases hk : d.key_material_ with
      | none =>
        simp [SwitchNetwork_no_key_material _ _ _ _ _ _ _ ht hk, FailedPreconditionError,
          Status.ok] at hok
      | some km =>
        cases hs : vpn.CreateProtectedNetworkSocket n endpoint with
        | error s =>
          rw [SwitchNetwork_socket_error _ _ _ _ _ _ _ _ _ ht hk hs]
          exact ⟨_, rfl, rfl, by simp [hs]⟩
        | ok so =>
          cases so with
          | none =>
            simp [SwitchNetwork_null_socket _ _ _ _ _ _ _ _ ht hk hs, InternalError,
              Status.ok] at hok
          | some sock =>
            by_cases h4 : endpoint.ip_protocol = IPProtocol.kIPv4
            · rw [SwitchNetwork_configure _ _ _ _ _ _ _ _ _ ht hk hs (Or.inl h4)]
              split_ifs <;> exact ⟨_, rfl, rfl, fun _ => ⟨rfl, rfl⟩⟩
            · by_cases h6 : endpoint.ip_protocol = IPProtocol.kIPv6
              · rw [SwitchNetwork_configure _ _ _ _ _ _ _ _ _ ht hk hs (Or.inr h6)]
                split_ifs <;> exact ⟨_, rfl, rfl, fun _ => ⟨rfl, rfl⟩⟩
              · simp [SwitchNetwork_unsupported_family _ _ _ _ _ _ _ _ _ ht hk hs h4 h6,
                  InternalError, Status.ok] at hok

/-- C1, witness: a switch on a working platform returns OK and stores the
session id and the endpoint. -/
theorem C1_SwitchNetwork_ok_key_material_witness :
    (keyedDatapath.SwitchNetwork workingPlatform 10 endpointV4 (some networkN1) 0).1.ok = true ∧
      ∃ km,
        (keyedDatapath.SwitchNetwork workingPlatform 10 endpointV4
            (some networkN1) 0).2.key_material_ = some km ∧
          km.uplink_spi = 10 ∧
          ((∃ n sock, some networkN1 = some n ∧
              workingPlatform.CreateProtectedNetworkSocket n endpointV4 = Except.ok sock) →
            km.destination_address = endpointV4.address ∧
              km.destination_port = endpointV4.port) :=
  ⟨rfl, C1_SwitchNetwork_ok_key_material keyedDatapath workingPlatform 10 endpointV4
    (some networkN1) 0 rfl⟩

/-! ## C2: the platform cannot create the socket -/

/-- C2.  With network info present, a tunnel and key material, when the
platform's `CreateProtectedNetworkSocket` fails with status `s`,
`SwitchNetwork` returns OK, posts exactly the one notification
`DatapathFailed(s)`, does not call `ConfigureIpSec`, and leaves the datapath
without forwarder and without network socket. -/
theorem C2_SwitchNetwork_socket_failure (d : IpSecDatapath) (vpn : VpnServiceInterface)
    (session_id : Nat) (endpoint : Endpoint) (n : NetworkInfo) (counter : Int)
    (tunnel : TunnelRef) (km : IpSecTransformParams) (s : Status)
    (htunnel : vpn.GetTunnel = some tunnel) (hkey : d.key_material_ = some km)
    (hsocket : vpn.CreateProtectedNetworkSocket n endpoint = Except.error s) :
    (d.SwitchNetwork vpn session_id endpoint (some n) counter).1 = OkStatus ∧
      posted (callTrace d (d.SwitchNetwork vpn session_id endpoint (some n) counter).2)
        = [Notification.DatapathFailed s] ∧
      configured (callTrace d (d.SwitchNetwork vpn session_id endpoint (some n) counter).2)
        = [] ∧
      (d.SwitchNetwork vpn session_id endpoint (some n) counter).2.forwarder_ = none ∧
      (d.SwitchNetwork vpn session_id endpoint (some n) counter).2.network_socket_ = none := by
  rw [SwitchNetwork_socket_error _ _ _ _ _ _ _ _ _ htunnel hkey hsocket]
  refine ⟨rfl, ?_, ?_, rfl, rfl⟩
  · rw [callTrace_of_append _ _ _ (List.append_assoc _ _ _), posted_append,
      posted_shutdownEvents]
    rfl
  · rw [callTrace_of_append _ _ _ (List.append_assoc _ _ _), configured_append,
      configured_shutdownEvents]
    rfl

/-- C2, witness: a running datapath switches to a network on which the
platform cannot create the socket. -/
theorem C2_SwitchNetwork_socket_failure_witness :
    (forwardingDatapath.SwitchNetwork socketFailingPlatform 11 endpointV4
        (some networkN1) 0).1 = OkStatus ∧
      posted (callTrace forwardingDatapath
        (forwardingDatapath.SwitchNetwork socketFailingPlatform 11 endpointV4
          (some networkN1) 0).2) = [Notification.DatapathFailed noNetworkFd] ∧
      configured (callTrace forwardingDatapath
        (forwardingDatapath.SwitchNetwork socketFailingPlatform 11 endpointV4
          (some networkN1) 0).2) = [] ∧
      (forwardingDatapath.SwitchNetwork socketFailingPlatform 11 endpointV4
        (some networkN1) 0).2.forwarder_ = none ∧
      (forwardingDatapath.SwitchNetwork socketFailingPlatform 11 endpointV4
        (some networkN1) 0).2.network_socket_ = none :=
  C2_SwitchNetwork_socket_failure forwardingDatapath socketFailingPlatform 11 endpointV4
    networkN1 0 ⟨0⟩ sampleKeyMaterial noNetworkFd rfl rfl rfl

/-! ## C3: the platform refuses the transform -/

/-- C3.  On a call that reaches `ConfigureIpSec` (network info, tunnel, key
material, a socket created, an IPv4 or IPv6 endpoint), `ConfigureIpSec` is
called once, on the assembled key material; when it answers a status `s` that
is not OK, `SwitchNetwork` returns `s`, starts no forwarder, posts no
notification, and the datapath holds no forwarder and no network socket. -/
theorem C3_SwitchNetwork_configure_failure (d : IpSecDatapath) (vpn : VpnServiceInterface)
    (session_id : Nat) (endpoint : Endpoint) (n : NetworkInfo) (counter : Int)
    (tunnel : TunnelRef) (km : IpSecTransformParams) (sock : IpSecSocket) (s : Status)
    (htunnel : vpn.GetTunnel = some tunnel) (hkey : d.key_material_ = some km)
    (hsocket : vpn.CreateProtectedNetworkSocket n endpoint = Except.ok (some sock))
    (hfamily : endpoint.ip_protocol = IPProtocol.kIPv4 ∨
      endpoint.ip_protocol = IPProtocol.kIPv6)
    (hconfigure : vpn.ConfigureIpSec
      (keyMaterialForConfigure d.config_ km session_id endpoint n sock.fd) = s)
    (hs : s.ok = false) :
    configured (callTrace d (d.SwitchNetwork vpn session_id endpoint (some n) counter).2)
        = [keyMaterialForConfigure d.config_ km session_id endpoint n sock.fd] ∧
      (d.SwitchNetwork vpn session_id endpoint (some n) counter).1 = s ∧
      forwardersStarted
        (callTrace d (d.SwitchNetwork vpn session_id endpoint (some n) counter).2) = [] ∧
      posted (callTrace d (d.SwitchNetwork vpn session_id endpoint (some n) counter).2)
        = [] ∧
      (d.SwitchNetwork vpn session_id endpoint (some n) counter).2.forwarder_ = none ∧
      (d.SwitchNetwork vpn session_id endpoint (some n) counter).2.network_socket_ = none := by
  rw [SwitchNetwork_configure _ _ _ _ _ _ _ _ _ htunnel hkey hsocket hfamily, hconfigure,
    if_neg (by simp [hs])]
  refine ⟨?_, rfl, ?_, ?_, rfl, rfl⟩
  · rw [callTrace_of_append _ _ _ (List.append_assoc _ _ _), configured_append,
      configured_shutdownEvents]
    rfl
  · rw [callTrace_of_append _ _ _ (List.append_assoc _ _ _), forwardersStarted_append,
      forwardersStarted_shutdownEvents]
    rfl
  · rw [callTrace_of_append _ _ _ (List.append_assoc _ _ _), posted_append,
      posted_shutdownEvents]
    rfl

/-- C3, witness: a running datapath switches on a platform that refuses the
transform. -/
theorem C3_SwitchNetwork_configure_failure_witness :
    configured (callTrace forwardingDatapath
        (forwardingDatapath.SwitchNetwork transformRefusingPlatform 11 endpointV4
          (some networkN1) 0).2)
        = [keyMaterialForConfigure forwardingDatapath.config_ sampleKeyMaterial 11 endpointV4
            networkN1 43] ∧
      (forwardingDatapath.SwitchNetwork transformRefusingPlatform 11 endpointV4
        (some networkN1) 0).1 = transformRefused ∧
      forwardersStarted (callTrace forwardingDatapath
        (forwardingDatapath.SwitchNetwork transformRefusingPlatform 11 endpointV4
          (some networkN1) 0).2) = [] ∧
      posted (callTrace forwardingDatapath
        (forwardingDatapath.SwitchNetwork transformRefusingPlatform 11 endpointV4
          (some networkN1) 0).2) = [] ∧
      (forwardingDatapath.SwitchNetwork transformRefusingPlatform 11 endpointV4
        (some networkN1) 0).2.forwarder_ = none ∧
      (forwardingDatapath.SwitchNetwork transformRefusingPlatform 11 endpointV4
        (some networkN1) 0).2.network_socket_ = none :=
  C3_SwitchNetwork_configure_failure forwardingDatapath transformRefusingPlatform 11
    endpointV4 networkN1 0 ⟨0⟩ sampleKeyMaterial ⟨43⟩ transformRefused rfl rfl rfl
    (Or.inl rfl) rfl rfl

/-! ## C4: `SwitchNetwork` without key material -/

/-- C4, counterexample.  With network info present and no key material
stored, on a platform without a tunnel, `SwitchNetwork` returns
`InvalidArgument`, not `FailedPrecondition`: the tunnel is checked first. -/
theorem C4_counterexample :
    idleDatapath.key_material_ = none ∧
      (idleDatapath.SwitchNetwork tunnelLessPlatform 10 endpointV4 (some networkN1) 0).1.code
        = StatusCode.kInvalidArgument ∧
      (idleDatapath.SwitchNetwork tunnelLessPlatform 10 endpointV4 (some networkN1) 0).1.code
        ≠ StatusCode.kFailedPrecondition := by
  decide

/-- C4, amended.  With network info present and a tunnel, a `SwitchNetwork`
issued while no key material is stored returns `FailedPrecondition`. -/
theorem C4_SwitchNetwork_without_key_material (d : IpSecDatapath)
    (vpn : VpnServiceInterface) (session_id : Nat) (endpoint : Endpoint) (n : NetworkInfo)
    (counter : Int) (tunnel : TunnelRef)
    (htunnel : vpn.GetTunnel = some tunnel) (hkey : d.key_material_ = none) :
    (d.SwitchNetwork vpn session_id endpoint (some n) counter).1
        = FailedPreconditionError "Key Material is not set" ∧
      (d.SwitchNetwork vpn session_id endpoint (some n) counter).1.code
        = StatusCode.kFailedPrecondition := by
  rw [SwitchNetwork_no_key_material _ _ _ _ _ _ _ htunnel hkey]
  exact ⟨rfl, rfl⟩

/-- C4, witness: a switch before any `Start`, on a working platform. -/
theorem C4_SwitchNetwork_without_key_material_witness :
    (idleDatapath.SwitchNetwork workingPlatform 10 endpointV4 (some networkN1) 0).1
        = FailedPreconditionError "Key Material is not set" ∧
      (idleDatapath.SwitchNetwork workingPlatform 10 endpointV4 (some networkN1) 0).1.code
        = StatusCode.kFailedPrecondition :=
  C4_SwitchNetwork_without_key_material idleDatapath workingPlatform 10 endpointV4
    networkN1 0 ⟨0⟩ rfl rfl

/-! ## C5: `SwitchNetwork` without network info -/

/-- C5.  In every datapath state, on every platform, for every session id and
endpoint, `SwitchNetwork` with `network_info` absent returns
`InvalidArgument`. -/
theorem C5_SwitchNetwork_without_network_info (d : IpSecDatapath)
    (vpn : VpnServiceInterface) (session_id : Nat) (endpoint : Endpoint) (counter : Int) :
    (d.SwitchNetwork vpn session_id endpoint none counter).1
        = InvalidArgumentError "network_info is unset" ∧
      (d.SwitchNetwork vpn session_id endpoint none counter).1.code
        = StatusCode.kInvalidArgument :=
  ⟨rfl, rfl⟩

/-! ## C6: an endpoint that is neither IPv4 nor IPv6 -/

/-- C6, counterexample.  For an endpoint of unknown protocol `SwitchNetwork`
does not return `Internal` when an earlier check ends the call: without
network info and without a tunnel it returns `InvalidArgument`, without key
material `FailedPrecondition`, and when the socket cannot be created OK. -/
theorem C6_counterexample :
    endpointUnknown.ip_protocol ≠ IPProtocol.kIPv4 ∧
      endpointUnknown.ip_protocol ≠ IPProtocol.kIPv6 ∧
      (keyedDatapath.SwitchNetwork workingPlatform 10 endpointUnknown none 0).1.code
        = StatusCode.kInvalidArgument ∧
      (keyedDatapath.SwitchNetwork tunnelLessPlatform 10 endpointUnknown
        (some networkN1) 0).1.code = StatusCode.kInvalidArgument ∧
      (idleDatapath.SwitchNetwork workingPlatform 10 endpointUnknown
        (some networkN1) 0).1.code = StatusCode.kFailedPrecondition ∧
      (keyedDatapath.SwitchNetwork socketFailingPlatform 10 endpointUnknown
        (some networkN1) 0).1.code = StatusCode.kOk := by
  decide

/-- C6, amended.  With network info present, a tunnel, key material stored
and a socket returned by the platform, `SwitchNetwork` for an endpoint whose
`ip_protocol` is neither IPv4 nor IPv6 returns `Internal`. -/
theorem C6_SwitchNetwork_unsupported_family (d : IpSecDatapath) (vpn : VpnServiceInterface)
    (session_id : Nat) (endpoint : Endpoint) (n : NetworkInfo) (counter : Int)
    (tunnel : TunnelRef) (km : IpSecTransformParams) (sock : Option IpSecSocket)
    (htunnel : vpn.GetTunnel = some tunnel) (hkey : d.key_material_ = some km)
    (hsocket : vpn.CreateProtectedNetworkSocket n endpoint = Except.ok sock)
    (h4 : endpoint.ip_protocol ≠ IPProtocol.kIPv4)
    (h6 : endpoint.ip_protocol ≠ IPProtocol.kIPv6) :
    (d.SwitchNetwork vpn session_id endpoint (some n) counter).1.code
      = StatusCode.kInternal := by
  cases sock with
  | none => rw [SwitchNetwork_null_socket _ _ _ _ _ _ _ _ htunnel hkey hsocket]; rfl
  | some so =>
    rw [SwitchNetwork_unsupported_family _ _ _ _ _ _ _ _ _ htunnel hkey hsocket h4 h6]; rfl

/-- C6, witness: a keyed datapath on a working platform, asked to switch to
an endpoint of unknown protocol. -/
theorem C6_SwitchNetwork_unsupported_family_witness :
    (keyedDatapath.SwitchNetwork workingPlatform 10 endpointUnknown
      (some networkN1) 0).1.code = StatusCode.kInternal :=
  C6_SwitchNetwork_unsupported_family keyedDatapath workingPlatform 10 endpointUnknown
    networkN1 0 ⟨0⟩ sampleKeyMaterial (some ⟨43⟩) rfl rfl rfl (by decide) (by decide)

/-! ## C7, C8: `Start` and `SetKeyMaterials` -/

/-- C7.  `Start` and `SetKeyMaterials` each return `InvalidArgument` exactly
when the params do not carry the IPsec variant, and then the whole datapath
state (key material, forwarder, network socket, trace) is as before. -/
theorem C7_Start_SetKeyMaterials_reject (d : IpSecDatapath)
    (egress_response : AddEgressResponse) (params : TransformParams) :
    ((d.Start egress_response params).1.code = StatusCode.kInvalidArgument ↔
        params.has_ipsec = false) ∧
      ((d.SetKeyMaterials params).1.code = StatusCode.kInvalidArgument ↔
        params.has_ipsec = false) ∧
      (params.has_ipsec = false →
        (d.Start egress_response params).2 = d ∧ (d.SetKeyMaterials params).2 = d) := by
  cases h : params.has_ipsec <;>
    simp [Start, SetKeyMaterials, h, InvalidArgumentError, OkStatus]

/-- C7, witness: bridge params offered to a running datapath. -/
theorem C7_Start_SetKeyMaterials_reject_witness :
    (forwardingDatapath.Start ⟨""⟩ (TransformParams.bridge ⟨[1], [2]⟩)).1.code
        = StatusCode.kInvalidArgument ∧
      (forwardingDatapath.SetKeyMaterials (TransformParams.bridge ⟨[1], [2]⟩)).1.code
        = StatusCode.kInvalidArgument ∧
      (forwardingDatapath.Start ⟨""⟩ (TransformParams.bridge ⟨[1], [2]⟩)).2
        = forwardingDatapath ∧
      (forwardingDatapath.SetKeyMaterials (TransformParams.bridge ⟨[1], [2]⟩)).2
        = forwardingDatapath :=
  have h := C7_Start_SetKeyMaterials_reject forwardingDatapath ⟨""⟩
    (TransformParams.bridge ⟨[1], [2]⟩)
  ⟨h.1.2 rfl, h.2.1.2 rfl, (h.2.2 rfl).1, (h.2.2 rfl).2⟩

/-- C8.  For params carrying the IPsec variant `p`, `Start` and
`SetKeyMaterials` each return OK, store exactly `p` as key material, leave the
forwarder and the network socket as they were, and call nothing on forwarder,
socket, platform or notification thread. -/
theorem C8_Start_SetKeyMaterials_store (d : IpSecDatapath)
    (egress_response : AddEgressResponse) (params : TransformParams)
    (p : IpSecTransformParams) (hparams : params = TransformParams.ipsec p) :
    ((d.Start egress_response params).1 = OkStatus ∧
        (d.Start egress_response params).2.key_material_ = some p ∧
        (d.Start egress_response params).2.forwarder_ = d.forwarder_ ∧
        (d.Start egress_response params).2.network_socket_ = d.network_socket_ ∧
        callTrace d (d.Start egress_response params).2 = []) ∧
      ((d.SetKeyMaterials params).1 = OkStatus ∧
        (d.SetKeyMaterials params).2.key_material_ = some p ∧
        (d.SetKeyMaterials params).2.forwarder_ = d.forwarder_ ∧
        (d.SetKeyMaterials params).2.network_socket_ = d.network_socket_ ∧
        callTrace d (d.SetKeyMaterials params).2 = []) := by
  subst hparams
  simp [Start, SetKeyMaterials, TransformParams.has_ipsec, TransformParams.get_ipsec,
    callTrace]

/-- C8, witness: a rekey of a running datapath, whose stored key material
already carries the network it was configured for. -/
theorem C8_Start_SetKeyMaterials_store_witness :
    ((forwardingDatapath.Start ⟨""⟩ (TransformParams.ipsec rekeyedKeyMaterial)).1 = OkStatus ∧
        (forwardingDatapath.Start ⟨""⟩
          (TransformParams.ipsec rekeyedKeyMaterial)).2.key_material_ = some rekeyedKeyMaterial ∧
        (forwardingDatapath.Start ⟨""⟩
          (TransformParams.ipsec rekeyedKeyMaterial)).2.forwarder_
            = forwardingDatapath.forwarder_ ∧
        (forwardingDatapath.Start ⟨""⟩
          (TransformParams.ipsec rekeyedKeyMaterial)).2.network_socket_
            = forwardingDatapath.network_socket_ ∧
        callTrace forwardingDatapath
          (forwardingDatapath.Start ⟨""⟩ (TransformParams.ipsec rekeyedKeyMaterial)).2 = []) ∧
      ((forwardingDatapath.SetKeyMaterials (TransformParams.ipsec rekeyedKeyMaterial)).1
          = OkStatus ∧
        (forwardingDatapath.SetKeyMaterials
          (TransformParams.ipsec rekeyedKeyMaterial)).2.key_material_ = some rekeyedKeyMaterial ∧
        (forwardingDatapath.SetKeyMaterials
          (TransformParams.ipsec rekeyedKeyMaterial)).2.forwarder_
            = forwardingDatapath.forwarder_ ∧
        (forwardingDatapath.SetKeyMaterials
          (TransformParams.ipsec rekeyedKeyMaterial)).2.network_socket_
            = forwardingDatapath.network_socket_ ∧
        callTrace forwardingDatapath
          (forwardingDatapath.SetKeyMaterials (TransformParams.ipsec rekeyedKeyMaterial)).2
            = []) :=
  C8_Start_SetKeyMaterials_store forwardingDatapath ⟨""⟩
    (TransformParams.ipsec rekeyedKeyMaterial) rekeyedKeyMaterial rfl

/-! ## C9: `Stop` -/

/-- C9.  In every state, after `Stop` the datapath holds no forwarder and no
network socket; what `Stop` called is exactly: `Stop()` on the forwarder when
there was one, then `Close()` on the socket when there was one.  So it closed
no tunnel and posted no notification. -/
theorem C9_Stop (d : IpSecDatapath) :
    d.Stop.forwarder_ = none ∧
      d.Stop.network_socket_ = none ∧
      callTrace d d.Stop =
        (match d.forwarder_ with
          | some f => [Event.forwarderStop f]
          | none => []) ++
        (match d.network_socket_ with
          | some s => [Event.socketClose s]
          | none => []) ∧
      tunnelsClosed (callTrace d d.Stop) = [] ∧
      posted (callTrace d d.Stop) = [] := by
  have htrace : callTrace d d.Stop = shutdownEvents d :=
    callTrace_of_append _ _ _ (shutdown_trace d)
  refine ⟨shutdown_forwarder d, shutdown_network_socket d, htrace, ?_, ?_⟩
  · rw [htrace, tunnelsClosed_shutdownEvents]
  · rw [htrace, posted_shutdownEvents]

/-! ## C10: the forwarder's notifications -/

/-- C10.  For every status `s`, `IpSecPacketForwarderFailed(s)` and
`IpSecPacketForwarderPermanentFailure(s)` do what `Stop` does, leaving no
forwarder and no socket, and after that post one notification,
`DatapathFailed(s)` respectively `DatapathPermanentFailure(s)`;
`IpSecPacketForwarderConnected` posts one `DatapathEstablished`, calls nothing
else and changes no member of the datapath. -/
theorem C10_forwarder_notifications (d : IpSecDatapath) (s : Status) :
    ((d.IpSecPacketForwarderFailed s).forwarder_ = none ∧
        (d.IpSecPacketForwarderFailed s).network_socket_ = none ∧
        callTrace d (d.IpSecPacketForwarderFailed s)
          = callTrace d d.Stop ++ [Event.post (Notification.DatapathFailed s)] ∧
        posted (callTrace d (d.IpSecPacketForwarderFailed s))
          = [Notification.DatapathFailed s]) ∧
      ((d.IpSecPacketForwarderPermanentFailure s).forwarder_ = none ∧
        (d.IpSecPacketForwarderPermanentFailure s).network_socket_ = none ∧
        callTrace d (d.IpSecPacketForwarderPermanentFailure s)
          = callTrace d d.Stop ++ [Event.post (Notification.DatapathPermanentFailure s)] ∧
        posted (callTrace d (d.IpSecPacketForwarderPermanentFailure s))
          = [Notification.DatapathPermanentFailure s]) ∧
      (callTrace d d.IpSecPacketForwarderConnected
          = [Event.post Notification.DatapathEstablished] ∧
        d.IpSecPacketForwarderConnected.config_ = d.config_ ∧
        d.IpSecPacketForwarderConnected.key_material_ = d.key_material_ ∧
        d.IpSecPacketForwarderConnected.network_socket_ = d.network_socket_ ∧
        d.IpSecPacketForwarderConnected.forwarder_ = d.forwarder_) := by
  have hstop : callTrace d d.Stop = shutdownEvents d :=
    callTrace_of_append _ _ _ (shutdown_trace d)
  have hfailed : callTrace d (d.IpSecPacketForwarderFailed s)
      = shutdownEvents d ++ [Event.post (Notification.DatapathFailed s)] :=
    callTrace_of_append _ _ _ (by
      simp [IpSecPacketForwarderFailed, Stop, emit, shutdown_trace])
  have hpermanent : callTrace d (d.IpSecPacketForwarderPermanentFailure s)
      = shutdownEvents d ++ [Event.post (Notification.DatapathPermanentFailure s)] :=
    callTrace_of_append _ _ _ (by
      simp [IpSecPacketForwarderPermanentFailure, Stop, emit, shutdown_trace])
  refine ⟨⟨?_, ?_, ?_, ?_⟩, ⟨?_, ?_, ?_, ?_⟩, ?_, rfl, rfl, rfl, rfl⟩
  · simp [IpSecPacketForwarderFailed, Stop, emit, shutdown_forwarder]
  · simp [IpSecPacketForwarderFailed, Stop, emit, shutdown_network_socket]
  · rw [hfailed, hstop]
  · rw [hfailed, posted_append, posted_shutdownEvents]; rfl
  · simp [IpSecPacketForwarderPermanentFailure, Stop, emit, shutdown_forwarder]
  · simp [IpSecPacketForwarderPermanentFailure, Stop, emit, shutdown_network_socket]
  · rw [hpermanent, hstop]
  · rw [hpermanent, posted_append, posted_shutdownEvents]; rfl
  · exact callTrace_of_append _ _ _ rfl

/-! ## C11: a switch after a forwarder failure -/

theorem IpSecPacketForwarderFailed_eq (d : IpSecDatapath) (status : Status) :
    d.IpSecPacketForwarderFailed status =
      { d with network_socket_ := none, forwarder_ := none,
               trace := d.trace ++ shutdownEvents d ++
                 [Event.post (Notification.DatapathFailed status)] } := by
  simp [IpSecPacketForwarderFailed, Stop, shutdown_eq, emit]

theorem IpSecPacketForwarderPermanentFailure_eq (d : IpSecDatapath) (status : Status) :
    d.IpSecPacketForwarderPermanentFailure status =
      { d with network_socket_ := none, forwarder_ := none,
               trace := d.trace ++ shutdownEvents d ++
                 [Event.post (Notification.DatapathPermanentFailure status)] } := by
  simp [IpSecPacketForwarderPermanentFailure, Stop, shutdown_eq, emit]

/-- C11.  Take a datapath that is forwarding (forwarder, socket and key
material present) and let it handle a forwarder failure, transient or
permanent.  The key material is still the same, and a `SwitchNetwork` that
follows directly, with network info, a tunnel, a socket created, an IPv4 or
IPv6 endpoint and `ConfigureIpSec` answering OK, returns OK, stops and closes
nothing, and leaves the new socket and one forwarder, started over the tunnel
and that socket. -/
theorem C11_SwitchNetwork_after_forwarder_failure (d failed : IpSecDatapath)
    (forwarder : IpSecPacketForwarder) (old_socket : IpSecSocket) (km : IpSecTransformParams)
    (status : Status) (vpn : VpnServiceInterface) (session_id : Nat) (endpoint : Endpoint)
    (n : NetworkInfo) (counter : Int) (tunnel : TunnelRef) (sock : IpSecSocket)
    (hforwarding : d.forwarder_ = some forwarder ∧ d.network_socket_ = some old_socket ∧
      d.key_material_ = some km)
    (hfailed : failed = d.IpSecPacketForwarderFailed status ∨
      failed = d.IpSecPacketForwarderPermanentFailure status)
    (htunnel : vpn.GetTunnel = some tunnel)
    (hsocket : vpn.CreateProtectedNetworkSocket n endpoint = Except.ok (some sock))
    (hfamily : endpoint.ip_protocol = IPProtocol.kIPv4 ∨
      endpoint.ip_protocol = IPProtocol.kIPv6)
    (hconfigure : (vpn.ConfigureIpSec
      (keyMaterialForConfigure d.config_ km session_id endpoint n sock.fd)).ok = true) :
    failed.key_material_ = some km ∧
      (failed.SwitchNetwork vpn session_id endpoint (some n) counter).1 = OkStatus ∧
      (failed.SwitchNetwork vpn session_id endpoint (some n) counter).2.forwarder_
        = some ⟨tunnel, sock, true⟩ ∧
      (failed.SwitchNetwork vpn session_id endpoint (some n) counter).2.network_socket_
        = some sock ∧
      callTrace failed (failed.SwitchNetwork vpn session_id endpoint (some n) counter).2
        = [Event.createProtectedNetworkSocket n endpoint,
           Event.configureIpSec
             (keyMaterialForConfigure d.config_ km session_id endpoint n sock.fd),
           Event.forwarderStart ⟨tunnel, sock, true⟩] := by
  obtain ⟨-, -, hkey⟩ := hforwarding
  have hk : failed.key_material_ = some km := by
    rcases hfailed with h | h <;> rw [h]
    · rw [IpSecPacketForwarderFailed_eq]; exact hkey
    · rw [IpSecPacketForwarderPermanentFailure_eq]; exact hkey
  have hc : failed.config_ = d.config_ := by
    rcases hfailed with h | h <;> rw [h]
    · rw [IpSecPacketForwarderFailed_eq]
    · rw [IpSecPacketForwarderPermanentFailure_eq]
  have hnone : shutdownEvents failed = [] := by
    rcases hfailed with h | h <;> rw [h]
    · rw [IpSecPacketForwarderFailed_eq]; rfl
    · rw [IpSecPacketForwarderPermanentFailure_eq]; rfl
  rw [SwitchNetwork_configure _ _ _ _ _ _ _ _ _ htunnel hk hsocket hfamily, hc,
    if_pos hconfigure]
  refine ⟨hk, rfl, rfl, rfl, ?_⟩
  exact callTrace_of_append _ _ _ (by simp [hnone])

/-- C11, witness: the running sample datapath fails permanently and is then
switched to a network on a working platform. -/
theorem C11_SwitchNetwork_after_forwarder_failure_witness :
    (forwardingDatapath.IpSecPacketForwarderPermanentFailure noNetworkFd).key_material_
        = some sampleKeyMaterial ∧
      ((forwardingDatapath.IpSecPacketForwarderPermanentFailure noNetworkFd).SwitchNetwork
        workingPlatform 11 endpointV4 (some networkN1) 0).1 = OkStatus ∧
      ((forwardingDatapath.IpSecPacketForwarderPermanentFailure noNetworkFd).SwitchNetwork
        workingPlatform 11 endpointV4 (some networkN1) 0).2.forwarder_
          = some ⟨⟨0⟩, ⟨43⟩, true⟩ ∧
      ((forwardingDatapath.IpSecPacketForwarderPermanentFailure noNetworkFd).SwitchNetwork
        workingPlatform 11 endpointV4 (some networkN1) 0).2.network_socket_ = some ⟨43⟩ ∧
      callTrace (forwardingDatapath.IpSecPacketForwarderPermanentFailure noNetworkFd)
        ((forwardingDatapath.IpSecPacketForwarderPermanentFailure noNetworkFd).SwitchNetwork
          workingPlatform 11 endpointV4 (some networkN1) 0).2
        = [Event.createProtectedNetworkSocket networkN1 endpointV4,
           Event.configureIpSec
             (keyMaterialForConfigure forwardingDatapath.config_ sampleKeyMaterial 11
               endpointV4 networkN1 43),
           Event.forwarderStart ⟨⟨0⟩, ⟨43⟩, true⟩] :=
  C11_SwitchNetwork_after_forwarder_failure forwardingDatapath
    (forwardingDatapath.IpSecPacketForwarderPermanentFailure noNetworkFd)
    ⟨⟨0⟩, ⟨42⟩, true⟩ ⟨42⟩ sampleKeyMaterial noNetworkFd workingPlatform 11 endpointV4
    networkN1 0 ⟨0⟩ ⟨43⟩ ⟨rfl, rfl, rfl⟩ (Or.inr rfl) rfl rfl (Or.inl rfl) rfl

/-! ## Lemmas on the tunnel -/

open IpSecTunnel

theorem Close_of_open (t : IpSecTunnel) (hopen : 0 ≤ t.tunnel_fd_) :
    Close t = (OkStatus,
      { t with tunnel_fd_ := -1,
               calls := t.calls ++ [TunnelCall.removeFile t.tunnel_fd_,
                 TunnelCall.close t.tunnel_fd_, TunnelCall.notify 1] }) := by
  simp [Close, record, not_lt.mpr hopen]

theorem Close_of_closed (t : IpSecTunnel) (hclosed : t.tunnel_fd_ = -1) :
    Close t = (OkStatus, t) := by
  cases t with
  | mk fd millis ce calls =>
    simp only at hclosed
    subst hclosed
    simp [Close]

theorem Close_tunnel_fd (t : IpSecTunnel) : (Close t).2.tunnel_fd_ = -1 := by
  unfold Close
  simp only
  split <;> rfl

theorem Close_close_event_fd (t : IpSecTunnel) :
    (Close t).2.close_event_fd = t.close_event_fd := by
  unfold Close
  simp only
  split <;> rfl

theorem callsSince_of_append (before after : IpSecTunnel) (cs : List TunnelCall)
    (h : after.calls = before.calls ++ cs) : callsSince before after = cs := by
  simp [callsSince, h]

theorem ReadPackets_of_closed (t : IpSecTunnel) (env : ReadEnv) (hclosed : t.tunnel_fd_ < 0) :
    ReadPackets t env
      = (some (Except.error (InternalError "Attempted to read on a closed fd.")), t) := by
  simp [ReadPackets, hclosed]

theorem WritePackets_of_closed (t : IpSecTunnel) (packets : List Packet)
    (writes : List WriteResult) (hclosed : t.tunnel_fd_ < 0) :
    WritePackets t packets writes
      = (some (InternalError "Attempted to write to a closed fd."), t) := by
  simp [WritePackets, hclosed]

theorem step_of_closed (t : IpSecTunnel) (op : TunnelOp) (hclosed : t.tunnel_fd_ = -1) :
    (step t op).tunnel_fd_ = -1 := by
  cases op with
  | Close => exact Close_tunnel_fd t
  | CancelReadPackets notify_status => simpa [step, CancelReadPackets, record] using hclosed
  | ReadPackets env =>
    simp only [step]
    rw [ReadPackets_of_closed t env (by omega)]
    exact hclosed
  | WritePackets packets writes =>
    simp only [step]
    rw [WritePackets_of_closed t packets writes (by omega)]
    exact hclosed
  | SetKeepaliveInterval keepalive_interval =>
    simp only [step, SetKeepaliveInterval]
    split <;> exact hclosed

theorem run_of_closed (ops : List TunnelOp) (t : IpSecTunnel) (hclosed : t.tunnel_fd_ = -1) :
    (run t ops).tunnel_fd_ = -1 := by
  induction ops generalizing t with
  | nil => exact hclosed
  | cons op ops ih => exact ih (step t op) (step_of_closed t op hclosed)

/-! ## C12: `Close` is idempotent -/

/-- C12.  `Close` on a tunnel returns OK and leaves `-1` in the fd slot.  On
an open tunnel (fd at least 0) it makes exactly three calls: the fd is removed
from the waiter, closed once, and the close event is notified once.  However
many further `Close` calls follow, each returns OK and leaves the tunnel as
the first one left it, trace included: no second `close`, no further
notification. -/
theorem C12_Close_idempotent (t : IpSecTunnel) (later : Nat) :
    (Close t).1 = OkStatus ∧
      (Close t).2.tunnel_fd_ = -1 ∧
      (0 ≤ t.tunnel_fd_ →
        callsSince t (Close t).2
          = [TunnelCall.removeFile t.tunnel_fd_, TunnelCall.close t.tunnel_fd_,
             TunnelCall.notify 1]) ∧
      Close (Nat.iterate (fun s => (Close s).2) later (Close t).2)
        = (OkStatus, (Close t).2) := by
  have hiter : Nat.iterate (fun s => (Close s).2) later (Close t).2 = (Close t).2 := by
    induction later with
    | zero => rfl
    | succ k ih =>
      rw [Function.iterate_succ_apply', ih, Close_of_closed _ (Close_tunnel_fd t)]
  refine ⟨?_, Close_tunnel_fd t, ?_, ?_⟩
  · unfold Close
    simp only
    split <;> rfl
  · intro hopen
    rw [Close_of_open t hopen]
    exact callsSince_of_append _ _ _ rfl
  · rw [hiter, Close_of_closed _ (Close_tunnel_fd t)]

/-- C12, witness: the open sample tunnel closed once, and then three more
times and once again. -/
theorem C12_Close_idempotent_witness :
    (Close openTunnel).1 = OkStatus ∧
      (Close openTunnel).2.tunnel_fd_ = -1 ∧
      callsSince openTunnel (Close openTunnel).2
        = [TunnelCall.removeFile 5, TunnelCall.close 5, TunnelCall.notify 1] ∧
      Close (Nat.iterate (fun s => (Close s).2) 3 (Close openTunnel).2)
        = (OkStatus, (Close openTunnel).2) :=
  have h := C12_Close_idempotent openTunnel 3
  ⟨h.1, h.2.1, h.2.2.1 (by decide), h.2.2.2⟩

/-! ## C13: reading and writing after `Close` -/

/-- C13.  After `Close` has returned on a tunnel, and after whatever
operations follow it, `ReadPackets` returns `Internal` and leaves the tunnel
as it was, so it has not waited; `WritePackets` returns `Internal` for every
list of packets, the empty one included, and leaves the tunnel as it was, so
it has not written. -/
theorem C13_read_write_after_Close (t : IpSecTunnel) (ops : List TunnelOp) (env : ReadEnv)
    (packets : List Packet) (writes : List WriteResult) :
    ReadPackets (run (Close t).2 ops) env
        = (some (Except.error (InternalError "Attempted to read on a closed fd.")),
            run (Close t).2 ops) ∧
      (InternalError "Attempted to read on a closed fd.").code = StatusCode.kInternal ∧
      WritePackets (run (Close t).2 ops) packets writes
        = (some (InternalError "Attempted to write to a closed fd."), run (Close t).2 ops) ∧
      WritePackets (run (Close t).2 ops) [] writes
        = (some (InternalError "Attempted to write to a closed fd."), run (Close t).2 ops) ∧
      (InternalError "Attempted to write to a closed fd.").code = StatusCode.kInternal := by
  have hclosed : (run (Close t).2 ops).tunnel_fd_ < 0 := by
    rw [run_of_closed ops _ (Close_tunnel_fd t)]
    decide
  exact ⟨ReadPackets_of_closed _ env hclosed, rfl, WritePackets_of_closed _ packets writes hclosed,
    WritePackets_of_closed _ [] writes hclosed, rfl⟩

/-! ## C14, C15: the close event and the timeout in `ReadPackets` -/

/-- C14.  On a tunnel that is open when `ReadPackets` starts, when the wait
succeeds with an event whose fd is the close event's, `ReadPackets` returns
OK with no packet, whatever the error and readable flags of the event, and
whether or not the tunnel was closed during the wait; it calls nothing but the
wait, so it does not read. -/
theorem C14_ReadPackets_close_event (t : IpSecTunnel) (env : ReadEnv)
    (hopen : 0 ≤ t.tunnel_fd_)
    (hstatus : (env.wait t.keepalive_interval_millis_).status.ok = true)
    (hevents : (env.wait t.keepalive_interval_millis_).num_events ≠ 0)
    (hfile : (env.wait t.keepalive_interval_millis_).event.file = t.close_event_fd) :
    (ReadPackets t env).1 = some (Except.ok []) ∧
      readsIssued (callsSince t (ReadPackets t env).2) = [] ∧
      callsSince t (ReadPackets t env).2
        = TunnelCall.wait t.keepalive_interval_millis_ ::
          (if env.close_during_wait then
            [TunnelCall.removeFile t.tunnel_fd_, TunnelCall.close t.tunnel_fd_,
             TunnelCall.notify 1]
           else []) := by
  have hcalls : callsSince t (ReadPackets t env).2
      = TunnelCall.wait t.keepalive_interval_millis_ ::
          (if env.close_during_wait then
            [TunnelCall.removeFile t.tunnel_fd_, TunnelCall.close t.tunnel_fd_,
             TunnelCall.notify 1]
           else []) := by
    apply callsSince_of_append
    cases hc : env.close_during_wait <;>
      simp [ReadPackets, not_lt.mpr hopen, hstatus, hevents, hfile, hc, record, Close]
  refine ⟨?_, ?_, hcalls⟩
  · cases hc : env.close_during_wait <;>
      simp [ReadPackets, not_lt.mpr hopen, hstatus, hevents, hfile, hc, record, Close]
  · rw [hcalls]
    cases env.close_during_wait <;> simp [readsIssued]

/-- C14, witness: the open sample tunnel is closed by another thread during
the wait, which reports the close event with the error and readable flags
set. -/
theorem C14_ReadPackets_close_event_witness :
    (ReadPackets openTunnel closingEnv).1 = some (Except.ok []) ∧
      readsIssued (callsSince openTunnel (ReadPackets openTunnel closingEnv).2) = [] ∧
      callsSince openTunnel (ReadPackets openTunnel closingEnv).2
        = TunnelCall.wait openTunnel.keepalive_interval_millis_ ::
          (if closingEnv.close_during_wait then
            [TunnelCall.removeFile openTunnel.tunnel_fd_,
             TunnelCall.close openTunnel.tunnel_fd_, TunnelCall.notify 1]
           else []) :=
  C14_ReadPackets_close_event openTunnel closingEnv (by decide) rfl (by decide) rfl

/-- C15.  On an open tunnel, when the wait inside `ReadPackets` succeeds with
zero events, `ReadPackets` returns OK with exactly one packet: one byte,
`0xFF`, of unknown IP protocol. -/
theorem C15_ReadPackets_timeout (t : IpSecTunnel) (env : ReadEnv)
    (hopen : 0 ≤ t.tunnel_fd_)
    (hstatus : (env.wait t.keepalive_interval_millis_).status.ok = true)
    (hevents : (env.wait t.keepalive_interval_millis_).num_events = 0) :
    ∃ packet,
      (ReadPackets t env).1 = some (Except.ok [packet]) ∧
        packet.data = [0xFF] ∧ packet.data.length = 1 ∧
        packet.ip_protocol = IPProtocol.kUnknown := by
  refine ⟨keepalivePacket, ?_, rfl, rfl, rfl⟩
  simp [ReadPackets, not_lt.mpr hopen, hstatus, hevents]

/-- C15, witness: the sample tunnel with a keepalive of 20 seconds, in an
environment where the timeout expires. -/
theorem C15_ReadPackets_timeout_witness :
    ∃ packet,
      (ReadPackets keepaliveTunnel timingOutEnv).1 = some (Except.ok [packet]) ∧
        packet.data = [0xFF] ∧ packet.data.length = 1 ∧
        packet.ip_protocol = IPProtocol.kUnknown :=
  C15_ReadPackets_timeout keepaliveTunnel timingOutEnv (by decide) (by decide) (by decide)

/-! ## Lemmas on the keepalive interval -/

theorem ToInt64Milliseconds_nonpos (d : absl.Duration) (h : d.ticks < 4000000) :
    absl.ToInt64Milliseconds d ≤ 0 := by
  have hq : Int.tdiv d.ticks 4000000 ≤ 0 := by
    by_cases h0 : 0 ≤ d.ticks
    · rw [Int.tdiv_eq_zero_of_lt h0 h]
    · have hneg : 0 ≤ -d.ticks := by omega
      have := Int.tdiv_nonneg hneg (by decide : (0 : Int) ≤ 4000000)
      rw [Int.neg_tdiv] at this
      omega
  unfold absl.ToInt64Milliseconds
  simp only [absl.kint64max, absl.kint64min]
  split_ifs <;> omega

theorem waitsIssued_append (xs ys : List TunnelCall) :
    waitsIssued (xs ++ ys) = waitsIssued xs ++ waitsIssued ys := by
  induction xs with
  | nil => simp [waitsIssued]
  | cons x xs ih => cases x <;> simp [waitsIssued, ih]

theorem waitsIssued_readRetry (fd : Int) (reads : List ReadResult) :
    waitsIssued (readRetry fd reads).1 = [] := by
  induction reads with
  | nil => simp [readRetry, waitsIssued]
  | cons r rs ih =>
    unfold readRetry
    split_ifs <;> simp [waitsIssued, ih]

theorem ReadPackets_waits_of_open (t : IpSecTunnel) (env : ReadEnv) (hopen : 0 ≤ t.tunnel_fd_) :
    ∃ rest, callsSince t (ReadPackets t env).2
        = TunnelCall.wait t.keepalive_interval_millis_ :: rest ∧
      waitsIssued rest = [] := by
  unfold ReadPackets
  rw [if_neg (not_lt.mpr hopen)]
  cases hc : env.close_during_wait <;>
    simp only [Bool.false_eq_true, if_false, if_true] <;>
    repeat' split
  all_goals
    simp [callsSince, record, Close, not_lt.mpr hopen, waitsIssued, waitsIssued_append,
      waitsIssued_readRetry]

theorem readsIssued_append (xs ys : List TunnelCall) :
    readsIssued (xs ++ ys) = readsIssued xs ++ readsIssued ys := by
  induction xs with
  | nil => simp [readsIssued]
  | cons x xs ih => cases x <;> simp [readsIssued, ih]

theorem readsIssued_readRetry_ne_nil (fd : Int) (reads : List ReadResult) (r : ReadResult)
    (h : (readRetry fd reads).2 = some r) : readsIssued (readRetry fd reads).1 ≠ [] := by
  cases reads with
  | nil => simp [readRetry] at h
  | cons x xs =>
    unfold readRetry
    split_ifs <;> simp [readsIssued]

theorem SetKeepaliveInterval_millis (t : IpSecTunnel) (d : absl.Duration) :
    (SetKeepaliveInterval t d).keepalive_interval_millis_
      = if absl.ToInt64Milliseconds d ≤ 0 then -1 else absl.ToInt64Milliseconds d := by
  unfold SetKeepaliveInterval
  simp only
  split_ifs <;> rfl

/-- C17.  A tunnel just constructed has its keepalive disabled, and so has a
tunnel after `SetKeepaliveInterval` with a duration of zero or less.  While it
is disabled, with a waiter that reports zero events only when a timeout of
zero or more expired: a `ReadPackets` on the open tunnel waits once, with
timeout `-1`, and on a closed one does not wait; it never returns the
keepalive packet; and whenever it returns a packet it has read it from the
fd. -/
theorem C17_no_keepalive_while_disabled (t : IpSecTunnel) (env : ReadEnv)
    (hdisabled : t.IsKeepaliveEnabled = false)
    (hwaiter : ∀ timeout, (env.wait timeout).status.ok = true →
      (env.wait timeout).num_events = 0 → 0 ≤ timeout) :
    (∀ tunnel_fd close_event_fd,
        (IpSecTunnel.new tunnel_fd close_event_fd).IsKeepaliveEnabled = false) ∧
      (∀ (s : IpSecTunnel) (d : absl.Duration), d.ticks ≤ 0 →
        (s.SetKeepaliveInterval d).IsKeepaliveEnabled = false) ∧
      waitsIssued (callsSince t (ReadPackets t env).2)
        = (if 0 ≤ t.tunnel_fd_ then [-1] else []) ∧
      (ReadPackets t env).1 ≠ some (Except.ok [keepalivePacket]) ∧
      (∀ packet packets, (ReadPackets t env).1 = some (Except.ok (packet :: packets)) →
        readsIssued (callsSince t (ReadPackets t env).2) ≠ []) := by
  have hmillis : t.keepalive_interval_millis_ = -1 := by
    simpa [IsKeepaliveEnabled] using hdisabled
  have hnot : (env.wait (-1)).status.ok = true → (env.wait (-1)).num_events ≠ 0 := by
    intro hok h0
    have := hwaiter (-1) hok h0
    omega
  refine ⟨fun _ _ => rfl, ?_, ?_, ?_, ?_⟩
  · intro s d hd
    have hm := SetKeepaliveInterval_millis s d
    rw [if_pos (ToInt64Milliseconds_nonpos d (by omega))] at hm
    simp [IsKeepaliveEnabled, hm]
  · by_cases hopen : 0 ≤ t.tunnel_fd_
    · obtain ⟨rest, hcalls, hrest⟩ := ReadPackets_waits_of_open t env hopen
      rw [hcalls, if_pos hopen, hmillis]
      simp [waitsIssued, hrest]
    · rw [ReadPackets_of_closed t env (by omega), if_neg hopen]
      simp [callsSince, waitsIssued]
  · by_cases hopen : 0 ≤ t.tunnel_fd_
    · unfold ReadPackets
      rw [if_neg (not_lt.mpr hopen), hmillis]
      simp only []
      by_cases hok : (env.wait (-1)).status.ok = true
      · have hne := hnot hok
        simp only [hok, hne, Bool.not_true, Bool.false_eq_true, if_false]
        generalize (if env.close_during_wait = true
          then (t.record (TunnelCall.wait (-1))).Close.2
          else t.record (TunnelCall.wait (-1))) = t1
        repeat' split
        all_goals simp [keepalivePacket]
      · simp [hok]
    · rw [ReadPackets_of_closed t env (by omega)]
      simp
  · intro packet packets
    by_cases hopen : 0 ≤ t.tunnel_fd_
    · have h1 : ∃ cs, (if env.close_during_wait = true
          then (t.record (TunnelCall.wait (-1))).Close.2
          else t.record (TunnelCall.wait (-1))).calls = t.calls ++ cs := by
        cases env.close_during_wait <;> simp [record, Close, not_lt.mpr hopen]
      unfold ReadPackets
      rw [if_neg (not_lt.mpr hopen), hmillis]
      simp only []
      by_cases hok : (env.wait (-1)).status.ok = true
      · have hne := hnot hok
        simp only [hok, hne, Bool.not_true, Bool.false_eq_true, if_false]
        revert h1
        generalize (if env.close_during_wait = true
          then (t.record (TunnelCall.wait (-1))).Close.2
          else t.record (TunnelCall.wait (-1))) = t1
        rintro ⟨cs, hcs⟩
        repeat' split
        all_goals try simp
        rename_i r hr hpos
        intro _ _
        simp only [callsSince, record, hcs, List.append_assoc, List.drop_left',
          readsIssued_append]
        intro hnil
        have := readsIssued_readRetry_ne_nil _ _ _ hr
        simp_all
      · simp [hok]
    · rw [ReadPackets_of_closed t env (by omega)]
      simp

/-- C17, witness: the sample tunnel, just constructed and open, in an
environment whose waiter times out exactly when it is given a timeout. -/
theorem C17_no_keepalive_while_disabled_witness :
    openTunnel.IsKeepaliveEnabled = false ∧
      waitsIssued (callsSince openTunnel (ReadPackets openTunnel timingOutEnv).2) = [-1] ∧
      (ReadPackets openTunnel timingOutEnv).1 ≠ some (Except.ok [keepalivePacket]) :=
  have h := C17_no_keepalive_while_disabled openTunnel timingOutEnv rfl (by
    intro timeout _ hevents
    by_cases h0 : 0 ≤ timeout
    · exact h0
    · simp [timingOutEnv, h0, waitReadable] at hevents)
  ⟨rfl, h.2.2.1.trans (if_pos (by decide)), h.2.2.2.1⟩

/-! ## C18: `WritePackets` -/

theorem writeRetry_answers (fd : Int) (data : List Nat) (interruptions : List WriteResult)
    (last : WriteResult) (rest : List WriteResult)
    (h : answersWrite (interruptions, last)) :
    writeRetry fd data (interruptions ++ last :: rest)
      = ((interruptions ++ [last]).map (TunnelCall.write fd data), some (last, rest)) := by
  have hint : ∀ r ∈ interruptions, r.write_bytes = -1 ∧ r.errno = EINTR := h.1
  have hlast : ¬ (last.write_bytes = -1 ∧ last.errno = EINTR) := h.2
  clear h
  induction interruptions with
  | nil =>
    rw [List.nil_append, writeRetry, if_neg hlast]
    rfl
  | cons r rs ih =>
    have hr : r.write_bytes = -1 ∧ r.errno = EINTR := hint r (List.mem_cons_self _ _)
    have ih := ih (fun x hx => hint x (List.mem_cons_of_mem _ hx))
    rw [List.cons_append, writeRetry, if_pos hr, ih]
    rfl

theorem writeLoop_whole (fd : Int) (packets : List Packet)
    (answers : List (List WriteResult × WriteResult)) (rest : List WriteResult)
    (h : List.Forall₂ writesWhole packets answers) :
    writeLoop fd packets (flattenAnswers answers ++ rest)
      = (some OkStatus, allWriteAttempts fd packets answers) := by
  induction h with
  | nil => simp [writeLoop, allWriteAttempts]
  | @cons packet a packets answers ha _ ih =>
    have hretry := writeRetry_answers fd packet.data a.1 a.2
      (flattenAnswers answers ++ rest) ha.1
    have hflat : flattenAnswers (a :: answers) ++ rest
        = a.1 ++ a.2 :: (flattenAnswers answers ++ rest) := by
      simp [flattenAnswers]
    rw [hflat]
    unfold writeLoop
    simp only [hretry, ha.2, ne_eq, not_true_eq_false, if_false, ih]
    rfl

theorem writeLoop_short (fd : Int) (done : List Packet)
    (answers : List (List WriteResult × WriteResult)) (packet : Packet)
    (later : List Packet) (a : List WriteResult × WriteResult) (rest : List WriteResult)
    (h : List.Forall₂ writesWhole done answers) (ha : answersWrite a)
    (hshort : a.2.write_bytes ≠ (packet.data.length : Int)) :
    writeLoop fd (done ++ packet :: later) (flattenAnswers answers ++ (a.1 ++ a.2 :: rest))
      = (some (InternalError "Error writing to FD="),
          allWriteAttempts fd done answers ++ writeAttempts fd packet a.1 a.2) := by
  induction h with
  | nil =>
    have hretry := writeRetry_answers fd packet.data a.1 a.2 rest ha
    simp only [List.nil_append, flattenAnswers, allWriteAttempts]
    unfold writeLoop
    simp only [hretry, hshort, ne_eq, not_false_eq_true, if_true]
    rfl
  | @cons p b ps bs hb _ ih =>
    have hretry := writeRetry_answers fd p.data b.1 b.2
      (flattenAnswers bs ++ (a.1 ++ a.2 :: rest)) hb.1
    have hflat : flattenAnswers (b :: bs) ++ (a.1 ++ a.2 :: rest)
        = b.1 ++ b.2 :: (flattenAnswers bs ++ (a.1 ++ a.2 :: rest)) := by
      simp [flattenAnswers]
    rw [hflat, List.cons_append]
    unfold writeLoop
    simp only [hretry, hb.2, ne_eq, not_true_eq_false, if_false, ih]
    simp [allWriteAttempts, writeAttempts]

theorem writesIssued_append (xs ys : List TunnelCall) :
    writesIssued (xs ++ ys) = writesIssued xs ++ writesIssued ys := by
  induction xs with
  | nil => simp [writesIssued]
  | cons x xs ih => cases x <;> simp [writesIssued, ih]

theorem fullWrites_append (xs ys : List TunnelCall) :
    fullWrites (xs ++ ys) = fullWrites xs ++ fullWrites ys := by
  simp [fullWrites, writesIssued_append]

theorem fullWrites_interruptions (fd : Int) (data : List Nat) (interruptions : List WriteResult)
    (h : ∀ r ∈ interruptions, r.interrupted) :
    fullWrites (interruptions.map (TunnelCall.write fd data)) = [] := by
  induction interruptions with
  | nil => rfl
  | cons r rs ih =>
    have hr : r.write_bytes = -1 := (h r (List.mem_cons_self _ _)).1
    have ih := ih (fun x hx => h x (List.mem_cons_of_mem _ hx))
    have hne : ¬ (r.write_bytes = (data.length : Int)) := by omega
    simp only [fullWrites] at ih ⊢
    simp [writesIssued, hne, ih]

theorem fullWrites_writeAttempts (fd : Int) (packet : Packet)
    (a : List WriteResult × WriteResult) (h : writesWhole packet a) :
    fullWrites (writeAttempts fd packet a.1 a.2) = [(packet.data, a.2)] := by
  unfold writeAttempts
  rw [List.map_append, fullWrites_append, fullWrites_interruptions fd packet.data a.1 h.1.1]
  simp [fullWrites, writesIssued, h.2]

theorem fullWrites_allWriteAttempts (fd : Int) (packets : List Packet)
    (answers : List (List WriteResult × WriteResult))
    (h : List.Forall₂ writesWhole packets answers) :
    (fullWrites (allWriteAttempts fd packets answers)).map Prod.fst
      = packets.map (fun packet => packet.data) := by
  induction h with
  | nil => rfl
  | @cons packet a packets answers ha _ ih =>
    simp only [allWriteAttempts, fullWrites_append, fullWrites_writeAttempts fd packet a ha,
      List.map_append, ih]
    rfl

/-- C18.  On an open tunnel, `WritePackets` writes the packets in list order,
each with one `write(2)` that is repeated while the kernel answers with an
interruption.  If every packet's write returns the packet's size, the result
is OK and the writes that wrote their whole packet are exactly the `N`
packets, in order.  If the write of some packet is short or fails, all before
it having been written whole, the result is `Internal` and the calls made are
those for the packets up to and including that one: nothing is written for
the packets after it. -/
theorem C18_WritePackets (t : IpSecTunnel) (hopen : 0 ≤ t.tunnel_fd_) :
    (∀ (packets : List Packet) (answers : List (List WriteResult × WriteResult))
        (rest : List WriteResult), List.Forall₂ writesWhole packets answers →
        (WritePackets t packets (flattenAnswers answers ++ rest)).1 = some OkStatus ∧
          callsSince t (WritePackets t packets (flattenAnswers answers ++ rest)).2
            = allWriteAttempts t.tunnel_fd_ packets answers ∧
          (fullWrites (callsSince t
              (WritePackets t packets (flattenAnswers answers ++ rest)).2)).map Prod.fst
            = packets.map (fun packet => packet.data) ∧
          (fullWrites (callsSince t
              (WritePackets t packets (flattenAnswers answers ++ rest)).2)).length
            = packets.length) ∧
      (∀ (done : List Packet) (answers : List (List WriteResult × WriteResult))
        (packet : Packet) (later : List Packet) (a : List WriteResult × WriteResult)
        (rest : List WriteResult), List.Forall₂ writesWhole done answers →
        answersWrite a → a.2.write_bytes ≠ (packet.data.length : Int) →
        (WritePackets t (done ++ packet :: later)
            (flattenAnswers answers ++ (a.1 ++ a.2 :: rest))).1
          = some (InternalError "Error writing to FD=") ∧
          (InternalError "Error writing to FD=").code = StatusCode.kInternal ∧
          callsSince t (WritePackets t (done ++ packet :: later)
              (flattenAnswers answers ++ (a.1 ++ a.2 :: rest))).2
            = allWriteAttempts t.tunnel_fd_ done answers ++
                writeAttempts t.tunnel_fd_ packet a.1 a.2) := by
  constructor
  · intro packets answers rest h
    have hloop := writeLoop_whole t.tunnel_fd_ packets answers rest h
    have hcalls : callsSince t (WritePackets t packets (flattenAnswers answers ++ rest)).2
        = allWriteAttempts t.tunnel_fd_ packets answers :=
      callsSince_of_append _ _ _ (by simp [WritePackets, not_lt.mpr hopen, hloop])
    refine ⟨by simp [WritePackets, not_lt.mpr hopen, hloop], hcalls, ?_, ?_⟩
    · rw [hcalls]
      exact fullWrites_allWriteAttempts _ _ _ h
    · have := congrArg List.length (fullWrites_allWriteAttempts t.tunnel_fd_ _ _ h)
      rw [hcalls]
      simpa using this
  · intro done answers packet later a rest h ha hshort
    have hloop := writeLoop_short t.tunnel_fd_ done answers packet later a rest h ha hshort
    exact ⟨by simp [WritePackets, not_lt.mpr hopen, hloop], rfl,
      callsSince_of_append _ _ _ (by simp [WritePackets, not_lt.mpr hopen, hloop])⟩

/-- C18, witness: on the open sample tunnel, two packets written whole, the
first after one interruption; and three packets of which the second is written
short, so that the third is not written. -/
theorem C18_WritePackets_witness :
    ((WritePackets openTunnel [packetFoo, packetBar]
          [writeInterrupted, wrote 3, wrote 2]).1 = some OkStatus ∧
        callsSince openTunnel (WritePackets openTunnel [packetFoo, packetBar]
          [writeInterrupted, wrote 3, wrote 2]).2
          = [TunnelCall.write 5 [102, 111, 111] writeInterrupted,
             TunnelCall.write 5 [102, 111, 111] (wrote 3),
             TunnelCall.write 5 [98, 97] (wrote 2)]) ∧
      ((WritePackets openTunnel [packetFoo, packetBar, packetBaz]
          [wrote 3, wrote 1, wrote 4]).1 = some (InternalError "Error writing to FD=") ∧
        callsSince openTunnel (WritePackets openTunnel [packetFoo, packetBar, packetBaz]
          [wrote 3, wrote 1, wrote 4]).2
          = [TunnelCall.write 5 [102, 111, 111] (wrote 3),
             TunnelCall.write 5 [98, 97] (wrote 1)]) :=
  have h := C18_WritePackets openTunnel (by decide)
  have hwhole := h.1 [packetFoo, packetBar] [([writeInterrupted], wrote 3), ([], wrote 2)] []
    (List.Forall₂.cons (by decide) (List.Forall₂.cons (by decide) List.Forall₂.nil))
  have hshort := h.2 [packetFoo] [([], wrote 3)] packetBar [packetBaz] ([], wrote 1) [wrote 4]
    (List.Forall₂.cons (by decide) List.Forall₂.nil) (by decide) (by decide)
  ⟨⟨hwhole.1, hwhole.2.1⟩, ⟨hshort.1, hshort.2.2⟩⟩

/-! ## C19: a failed read -/

theorem readRetry_answers (fd : Int) (interruptions : List ReadResult) (last : ReadResult)
    (rest : List ReadResult) (hint : ∀ r ∈ interruptions, r.interrupted)
    (hlast : ¬ last.interrupted) :
    readRetry fd (interruptions ++ last :: rest)
      = ((interruptions ++ [last]).map (TunnelCall.read fd), some last) := by
  have hint : ∀ r ∈ interruptions, r.read_bytes = -1 ∧ r.errno = EINTR := hint
  have hlast : ¬ (last.read_bytes = -1 ∧ last.errno = EINTR) := hlast
  induction interruptions with
  | nil =>
    rw [List.nil_append, readRetry, if_neg hlast]
    rfl
  | cons r rs ih =>
    have hr : r.read_bytes = -1 ∧ r.errno = EINTR := hint r (List.mem_cons_self _ _)
    have ih := ih (fun x hx => hint x (List.mem_cons_of_mem _ hx))
      (fun x hx => hint x (List.mem_cons_of_mem _ hx))
    rw [List.cons_append, readRetry, if_pos hr, ih]
    rfl

/-- C19.  On an open tunnel that is not closed during the wait, when the wait
reports the tunnel fd readable without error and the read, repeated while the
kernel answers with an interruption, ends with a count of zero or less,
`ReadPackets` returns `Aborted` and no packet, and the buffer it allocated
before the read is deleted after it. -/
theorem C19_ReadPackets_read_failure (t : IpSecTunnel) (env : ReadEnv)
    (interruptions : List ReadResult) (last : ReadResult) (rest : List ReadResult)
    (hopen : 0 ≤ t.tunnel_fd_) (hnoclose : env.close_during_wait = false)
    (hstatus : (env.wait t.keepalive_interval_millis_).status.ok = true)
    (hevents : (env.wait t.keepalive_interval_millis_).num_events ≠ 0)
    (hfile : (env.wait t.keepalive_interval_millis_).event.file ≠ t.close_event_fd)
    (herror : (env.wait t.keepalive_interval_millis_).event.has_error = false)
    (hreadable : (env.wait t.keepalive_interval_millis_).event.can_read = true)
    (hreads : env.reads = interruptions ++ last :: rest)
    (hint : ∀ r ∈ interruptions, r.interrupted) (hlast : ¬ last.interrupted)
    (hfail : last.read_bytes ≤ 0) :
    (ReadPackets t env).1 = some (Except.error (AbortedError "Reading from FD $0: $1")) ∧
      (AbortedError "Reading from FD $0: $1").code = StatusCode.kAborted ∧
      callsSince t (ReadPackets t env).2
        = [TunnelCall.wait t.keepalive_interval_millis_, TunnelCall.newBuffer] ++
            (interruptions ++ [last]).map (TunnelCall.read t.tunnel_fd_) ++
            [TunnelCall.deleteBuffer] := by
  have hretry := readRetry_answers t.tunnel_fd_ interruptions last rest hint hlast
  refine ⟨?_, rfl, ?_⟩
  · simp [ReadPackets, not_lt.mpr hopen, hnoclose, hstatus, hevents, hfile, herror, hreadable,
      hreads, hretry, hfail, record]
  · apply callsSince_of_append
    simp [ReadPackets, not_lt.mpr hopen, hnoclose, hstatus, hevents, hfile, herror, hreadable,
      hreads, hretry, hfail, record]

/-- C19, witness: the open sample tunnel is readable, and the read is
interrupted once and then returns nothing. -/
theorem C19_ReadPackets_read_failure_witness :
    (ReadPackets openTunnel failingReadEnv).1
        = some (Except.error (AbortedError "Reading from FD $0: $1")) ∧
      (AbortedError "Reading from FD $0: $1").code = StatusCode.kAborted ∧
      callsSince openTunnel (ReadPackets openTunnel failingReadEnv).2
        = [TunnelCall.wait openTunnel.keepalive_interval_millis_, TunnelCall.newBuffer] ++
            ([readInterrupted] ++ [readNothing]).map (TunnelCall.read openTunnel.tunnel_fd_) ++
            [TunnelCall.deleteBuffer] :=
  C19_ReadPackets_read_failure openTunnel failingReadEnv [readInterrupted] readNothing []
    (by decide) rfl rfl (by decide) (by decide) rfl rfl rfl (by decide) (by decide) (by decide)

/-! ## C20: the keepalive intervals of `BuildDatapath` -/

/-- C20.  For every configuration and every conversion of durations, after
`BuildDatapath` the IPv4 keepalive interval is 20 seconds when the
configuration carries no IPv4 interval or its conversion fails, and the
converted configured duration otherwise; the IPv6 keepalive interval is one
hour when the configuration carries no IPv6 interval or its conversion fails,
and the converted configured duration otherwise. -/
theorem C20_BuildDatapath_keepalive_intervals (v : VpnService) (config : KryptonConfig)
    (DurationFromProto : Duration → Except Status absl.Duration) :
    (v.BuildDatapath config DurationFromProto).2.keepalive_interval_ipv4_
        = (match config.ipv4_keepalive_interval with
            | none => absl.Seconds 20
            | some interval =>
              match DurationFromProto interval with
              | Except.ok keepalive => keepalive
              | Except.error _ => absl.Seconds 20) ∧
      (v.BuildDatapath config DurationFromProto).2.keepalive_interval_ipv6_
        = (match config.ipv6_keepalive_interval with
            | none => absl.Hours 1
            | some interval =>
              match DurationFromProto interval with
              | Except.ok keepalive => keepalive
              | Except.error _ => absl.Hours 1) ∧
      absl.Hours 1 = absl.Seconds 3600 := by
  refine ⟨?_, ?_, by decide⟩
  · unfold VpnService.BuildDatapath
    simp only [kDefaultIpv4KeepaliveInterval, kDefaultIpv6KeepaliveInterval]
    repeat' split
    all_goals simp_all
  · unfold VpnService.BuildDatapath
    simp only [kDefaultIpv4KeepaliveInterval, kDefaultIpv6KeepaliveInterval]
    repeat' split
    all_goals simp_all

/-! ## Lemmas on sequences of calls -/

theorem SwitchNetwork_forwarder_socket (d : IpSecDatapath) (vpn : VpnServiceInterface)
    (session_id : Nat) (endpoint : Endpoint) (network_info : Option NetworkInfo)
    (counter : Int) :
    (d.SwitchNetwork vpn session_id endpoint network_info counter).2 = d ∨
      ((d.SwitchNetwork vpn session_id endpoint network_info counter).2.forwarder_ = none ∧
        (d.SwitchNetwork vpn session_id endpoint network_info counter).2.network_socket_
          = none) ∨
      ((d.SwitchNetwork vpn session_id endpoint network_info counter).2.forwarder_.isSome ∧
        (d.SwitchNetwork vpn session_id endpoint network_info counter).2.network_socket_.isSome ∧
        (d.SwitchNetwork vpn session_id endpoint network_info counter).2.key_material_.isSome) := by
  cases network_info with
  | none => exact Or.inl rfl
  | some n =>
    cases ht : vpn.GetTunnel with
    | none => rw [SwitchNetwork_null_tunnel _ _ _ _ _ _ ht]; exact Or.inl rfl
    | some t =>
      cases hk : d.key_material_ with
      | none =>
        rw [SwitchNetwork_no_key_material _ _ _ _ _ _ _ ht hk]
        exact Or.inr (Or.inl ⟨rfl, rfl⟩)
      | some km =>
        cases hs : vpn.CreateProtectedNetworkSocket n endpoint with
        | error s =>
          rw [SwitchNetwork_socket_error _ _ _ _ _ _ _ _ _ ht hk hs]
          exact Or.inr (Or.inl ⟨rfl, rfl⟩)
        | ok so =>
          cases so with
          | none =>
            rw [SwitchNetwork_null_socket _ _ _ _ _ _ _ _ ht hk hs]
            exact Or.inr (Or.inl ⟨rfl, rfl⟩)
          | some sock =>
            by_cases h4 : endpoint.ip_protocol = IPProtocol.kIPv4
            · rw [SwitchNetwork_configure _ _ _ _ _ _ _ _ _ ht hk hs (Or.inl h4)]
              split_ifs
              · exact Or.inr (Or.inr ⟨rfl, rfl, rfl⟩)
              · exact Or.inr (Or.inl ⟨rfl, rfl⟩)
            · by_cases h6 : endpoint.ip_protocol = IPProtocol.kIPv6
              · rw [SwitchNetwork_configure _ _ _ _ _ _ _ _ _ ht hk hs (Or.inr h6)]
                split_ifs
                · exact Or.inr (Or.inr ⟨rfl, rfl, rfl⟩)
                · exact Or.inr (Or.inl ⟨rfl, rfl⟩)
              · rw [SwitchNetwork_unsupported_family _ _ _ _ _ _ _ _ _ ht hk hs h4 h6]
                exact Or.inr (Or.inl ⟨rfl, rfl⟩)

theorem perform_forwarder_socket (d : IpSecDatapath) (op : DatapathOp)
    (h : (d.forwarder_.isSome ↔ d.network_socket_.isSome) ∧
      (d.forwarder_.isSome → d.key_material_.isSome)) :
    ((d.perform op).forwarder_.isSome ↔ (d.perform op).network_socket_.isSome) ∧
      ((d.perform op).forwarder_.isSome → (d.perform op).key_material_.isSome) := by
  cases op with
  | Start egress_response params =>
    cases hp : params.has_ipsec <;> simp [perform, Start, hp, h]
    exact fun hs => h.2 (h.1.2 hs)
  | SetKeyMaterials params =>
    cases hp : params.has_ipsec <;> simp [perform, SetKeyMaterials, hp, h]
    exact fun hs => h.2 (h.1.2 hs)
  | SwitchNetwork vpn session_id endpoint network_info counter =>
    simp only [perform]
    rcases SwitchNetwork_forwarder_socket d vpn session_id endpoint network_info counter
      with h0 | ⟨hf, hs⟩ | ⟨hf, hs, hk⟩
    · rw [h0]; exact h
    · simp [hf, hs]
    · simp [hf, hs, hk]
  | Stop => simp [perform, Stop, shutdown_forwarder, shutdown_network_socket]
  | IpSecPacketForwarderFailed status =>
    simp [perform, IpSecPacketForwarderFailed_eq]
  | IpSecPacketForwarderPermanentFailure status =>
    simp [perform, IpSecPacketForwarderPermanentFailure_eq]
  | IpSecPacketForwarderConnected =>
    simpa [perform, IpSecPacketForwarderConnected, emit] using h

/-! ## C26: forwarder, socket and key material go together -/

/-- C26.  In every state reached from the initial datapath state (no key
material, no forwarder, no socket) by a sequence of `Start`,
`SetKeyMaterials`, `SwitchNetwork`, `Stop` and the forwarder's callbacks,
whatever the platform answers in each `SwitchNetwork`, the datapath holds a
forwarder if and only if it holds a network socket, and when it holds a
forwarder it holds key material. -/
theorem C26_forwarder_iff_socket (config : KryptonConfig) (ops : List DatapathOp) :
    (((IpSecDatapath.new config).performAll ops).forwarder_.isSome ↔
        ((IpSecDatapath.new config).performAll ops).network_socket_.isSome) ∧
      (((IpSecDatapath.new config).performAll ops).forwarder_.isSome →
        ((IpSecDatapath.new config).performAll ops).key_material_.isSome) := by
  have hall : ∀ (ops : List DatapathOp) (d : IpSecDatapath),
      ((d.forwarder_.isSome ↔ d.network_socket_.isSome) ∧
        (d.forwarder_.isSome → d.key_material_.isSome)) →
      (((d.performAll ops).forwarder_.isSome ↔ (d.performAll ops).network_socket_.isSome) ∧
        ((d.performAll ops).forwarder_.isSome → (d.performAll ops).key_material_.isSome)) := by
    intro ops
    induction ops with
    | nil => intro d h; exact h
    | cons op ops ih => intro d h; exact ih (d.perform op) (perform_forwarder_socket d op h)
  exact hall ops (IpSecDatapath.new config) (by simp [IpSecDatapath.new])

/-- C26, witness: a start, a switch on a working platform, a rekey, a switch
that the platform refuses, and a stop. -/
theorem C26_forwarder_iff_socket_witness :
    (((IpSecDatapath.new sampleConfig).performAll sampleSession).forwarder_.isSome ↔
        ((IpSecDatapath.new sampleConfig).performAll sampleSession).network_socket_.isSome) ∧
      (((IpSecDatapath.new sampleConfig).performAll sampleSession).forwarder_.isSome →
        ((IpSecDatapath.new sampleConfig).performAll sampleSession).key_material_.isSome) :=
  C26_forwarder_iff_socket sampleConfig sampleSession

/-! ## C27: the `InvalidArgument` returns of `SwitchNetwork` leave everything -/

/-- C27.  `SwitchNetwork` returns `InvalidArgument` when `network_info` is
absent and when it is present but the platform has no tunnel; in both cases
the datapath is exactly as before (key material, forwarder, network socket),
and the call has made no call at all: no forwarder stopped, no socket asked of
the platform, no `ConfigureIpSec`, no notification. -/
theorem C27_SwitchNetwork_invalid_argument (d : IpSecDatapath) (vpn : VpnServiceInterface)
    (session_id : Nat) (endpoint : Endpoint) (network_info : Option NetworkInfo)
    (counter : Int) (hinvalid : network_info = none ∨ vpn.GetTunnel = none) :
    (d.SwitchNetwork vpn session_id endpoint network_info counter).1.code
        = StatusCode.kInvalidArgument ∧
      (d.SwitchNetwork vpn session_id endpoint network_info counter).2 = d ∧
      callTrace d (d.SwitchNetwork vpn session_id endpoint network_info counter).2 = [] := by
  have hresult : (d.SwitchNetwork vpn session_id endpoint network_info counter).1.code
        = StatusCode.kInvalidArgument ∧
      (d.SwitchNetwork vpn session_id endpoint network_info counter).2 = d := by
    cases network_info with
    | none => exact ⟨rfl, rfl⟩
    | some n =>
      rcases hinvalid with h | h
      · cases h
      · rw [SwitchNetwork_null_tunnel _ _ _ _ _ _ h]
        exact ⟨rfl, rfl⟩
  refine ⟨hresult.1, hresult.2, ?_⟩
  rw [hresult.2]
  simp [callTrace]

/-- C27, witness: the running sample datapath is asked to switch on a
platform without a tunnel; its forwarder and socket stay. -/
theorem C27_SwitchNetwork_invalid_argument_witness :
    (forwardingDatapath.SwitchNetwork tunnelLessPlatform 11 endpointV4
        (some networkN1) 0).1.code = StatusCode.kInvalidArgument ∧
      (forwardingDatapath.SwitchNetwork tunnelLessPlatform 11 endpointV4
        (some networkN1) 0).2 = forwardingDatapath ∧
      callTrace forwardingDatapath (forwardingDatapath.SwitchNetwork tunnelLessPlatform 11
        endpointV4 (some networkN1) 0).2 = [] :=
  C27_SwitchNetwork_invalid_argument forwardingDatapath tunnelLessPlatform 11 endpointV4
    (some networkN1) 0 (Or.inr rfl)

/-! ## C23: what `ConfigureIpSec` is given -/

theorem SwitchNetwork_configured (d : IpSecDatapath) (vpn : VpnServiceInterface)
    (sid : Nat) (ep : Endpoint) (n : NetworkInfo) (c : Int) (t : TunnelRef)
    (km : IpSecTransformParams) (sock : IpSecSocket)
    (ht : vpn.GetTunnel = some t) (hk : d.key_material_ = some km)
    (hs : vpn.CreateProtectedNetworkSocket n ep = Except.ok (some sock))
    (hp : ep.ip_protocol = IPProtocol.kIPv4 ∨ ep.ip_protocol = IPProtocol.kIPv6) :
    configured (callTrace d (d.SwitchNetwork vpn sid ep (some n) c).2)
      = [keyMaterialForConfigure d.config_ km sid ep n sock.fd] := by
  rw [SwitchNetwork_configure _ _ _ _ _ _ _ _ _ ht hk hs hp]
  split_ifs
  · rw [callTrace_of_append _ _ _ (List.append_assoc _ _ _), configured_append,
      configured_shutdownEvents]
    rfl
  · rw [callTrace_of_append _ _ _ (List.append_assoc _ _ _), configured_append,
      configured_shutdownEvents]
    rfl

/-- C23, counterexample.  The configuration carries the IPv4 keepalive
interval (20 seconds) and no IPv6 one.  After a switch to an IPv4 endpoint, a
switch to an IPv6 endpoint calls `ConfigureIpSec` once, with family V6 and a
keepalive interval of 20 seconds: not an entry of the endpoint's family, which
the configuration lacks, but what the earlier switch left in the key
material. -/
theorem C23_counterexample :
    configV4Only.ipv4_keepalive_interval = some ⟨20, 0⟩ ∧
      configV4Only.ipv6_keepalive_interval = none ∧
      endpointV6.ip_protocol = IPProtocol.kIPv6 ∧
      (configured (callTrace v4OnlySwitchedToV4
          (v4OnlySwitchedToV4.SwitchNetwork workingPlatform 11 endpointV6
            (some networkN1) 1).2)).map
        (fun params => (params.destination_address_family, params.keepalive_interval_seconds))
        = [(some AddressFamily.V6, 20)] := by
  decide

/-- C23, amended.  On a call that reaches `ConfigureIpSec`, it is called
exactly once, and the key material passed has `uplink_spi` the session id, the
endpoint's address and port, the network id of `network_info`, the fd of the
socket just created, family V4 for an IPv4 endpoint and V6 for an IPv6 one;
its keepalive interval is the seconds of the configuration's entry for the
endpoint's family when the configuration carries that entry, and otherwise the
keepalive interval the stored key material already had. -/
theorem C23_ConfigureIpSec_argument (d : IpSecDatapath) (vpn : VpnServiceInterface)
    (session_id : Nat) (endpoint : Endpoint) (n : NetworkInfo) (counter : Int)
    (tunnel : TunnelRef) (km : IpSecTransformParams) (sock : IpSecSocket)
    (htunnel : vpn.GetTunnel = some tunnel) (hkey : d.key_material_ = some km)
    (hsocket : vpn.CreateProtectedNetworkSocket n endpoint = Except.ok (some sock))
    (hfamily : endpoint.ip_protocol = IPProtocol.kIPv4 ∨
      endpoint.ip_protocol = IPProtocol.kIPv6) :
    ∃ params,
      configured (callTrace d (d.SwitchNetwork vpn session_id endpoint (some n) counter).2)
          = [params] ∧
        params.uplink_spi = session_id ∧
        params.destination_address = endpoint.address ∧
        params.destination_port = endpoint.port ∧
        params.network_id = n.network_id ∧
        params.network_fd = sock.GetFd ∧
        (endpoint.ip_protocol = IPProtocol.kIPv4 →
          params.destination_address_family = some AddressFamily.V4 ∧
          (∀ interval, d.config_.ipv4_keepalive_interval = some interval →
            params.keepalive_interval_seconds = interval.seconds) ∧
          (d.config_.ipv4_keepalive_interval = none →
            params.keepalive_interval_seconds = km.keepalive_interval_seconds)) ∧
        (endpoint.ip_protocol = IPProtocol.kIPv6 →
          params.destination_address_family = some AddressFamily.V6 ∧
          (∀ interval, d.config_.ipv6_keepalive_interval = some interval →
            params.keepalive_interval_seconds = interval.seconds) ∧
          (d.config_.ipv6_keepalive_interval = none →
            params.keepalive_interval_seconds = km.keepalive_interval_seconds)) := by
  refine ⟨keyMaterialForConfigure d.config_ km session_id endpoint n sock.fd,
    SwitchNetwork_configured _ _ _ _ _ _ _ _ _ htunnel hkey hsocket hfamily,
    rfl, rfl, rfl, rfl, rfl, ?_, ?_⟩
  · intro h4
    refine ⟨by simp [keyMaterialForConfigure, h4], ?_, ?_⟩
    · intro interval hc
      simp [keyMaterialForConfigure, h4, hc]
    · intro hc
      simp [keyMaterialForConfigure, h4, hc]
  · intro h6
    refine ⟨by simp [keyMaterialForConfigure, h6], ?_, ?_⟩
    · intro interval hc
      simp [keyMaterialForConfigure, h6, hc]
    · intro hc
      simp [keyMaterialForConfigure, h6, hc]

/-- C23, witness: the keyed sample datapath, whose configuration carries both
intervals, switches to the IPv4 endpoint on a working platform. -/
theorem C23_ConfigureIpSec_argument_witness :
    ∃ params,
      configured (callTrace keyedDatapath
          (keyedDatapath.SwitchNetwork workingPlatform 10 endpointV4 (some networkN1) 0).2)
          = [params] ∧
        params.uplink_spi = 10 ∧
        params.destination_address = "192.0.2.1" ∧
        params.destination_port = 2153 ∧
        params.network_id = 100 ∧
        params.network_fd = 43 ∧
        params.destination_address_family = some AddressFamily.V4 ∧
        params.keepalive_interval_seconds = 20 :=
  have ⟨params, h⟩ := C23_ConfigureIpSec_argument keyedDatapath workingPlatform 10 endpointV4
    networkN1 0 ⟨0⟩ sampleKeyMaterial ⟨43⟩ rfl rfl rfl (Or.inl rfl)
  ⟨params, h.1, h.2.1, h.2.2.1, h.2.2.2.1, h.2.2.2.2.1, h.2.2.2.2.2.1,
    (h.2.2.2.2.2.2.1 rfl).1, (h.2.2.2.2.2.2.1 rfl).2.1 ⟨20, 0⟩ rfl⟩

/-! ## C24: the fd in the key material and the socket owned -/

/-- C24, counterexample.  After a start, a switch on a working platform and a
stop, key material is stored with `network_fd` 43, and the datapath owns no
network socket: `Stop` closes the socket and leaves the key material as it
is. -/
theorem C24_counterexample :
    ((IpSecDatapath.new sampleConfig).performAll stoppedSession).key_material_.map
        (fun params => params.network_fd) = some 43 ∧
      (0 : Int) ≤ 43 ∧
      ((IpSecDatapath.new sampleConfig).performAll stoppedSession).network_socket_ = none := by
  decide

/-- C24, amended.  Right after every `SwitchNetwork` that returns OK and
leaves the datapath owning a network socket, key material is stored and its
`network_fd` is the fd of that socket. -/
theorem C24_network_fd_after_SwitchNetwork (d : IpSecDatapath) (vpn : VpnServiceInterface)
    (session_id : Nat) (endpoint : Endpoint) (network_info : Option NetworkInfo)
    (counter : Int) (sock : IpSecSocket)
    (hok : (d.SwitchNetwork vpn session_id endpoint network_info counter).1.ok = true)
    (howned : (d.SwitchNetwork vpn session_id endpoint network_info counter).2.network_socket_
      = some sock) :
    ∃ km,
      (d.SwitchNetwork vpn session_id endpoint network_info counter).2.key_material_ = some km ∧
        km.network_fd = sock.GetFd := by
  cases network_info with
  | none => simp [SwitchNetwork_no_network_info, InvalidArgumentError, Status.ok] at hok
  | some n =>
    cases ht : vpn.GetTunnel with
    | none => simp [SwitchNetwork_null_tunnel _ _ _ _ _ _ ht, InvalidArgumentError, Status.ok] at hok
    | some t =>
      cases hk : d.key_material_ with
      | none =>
        simp [SwitchNetwork_no_key_material _ _ _ _ _ _ _ ht hk, FailedPreconditionError,
          Status.ok] at hok
      | some km =>
        cases hs : vpn.CreateProtectedNetworkSocket n endpoint with
        | error s =>
          rw [SwitchNetwork_socket_error _ _ _ _ _ _ _ _ _ ht hk hs] at howned
          simp at howned
        | ok so =>
          cases so with
          | none =>
            simp [SwitchNetwork_null_socket _ _ _ _ _ _ _ _ ht hk hs, InternalError,
              Status.ok] at hok
          | some created =>
            have hfamily : endpoint.ip_protocol = IPProtocol.kIPv4 ∨
                endpoint.ip_protocol = IPProtocol.kIPv6 := by
              by_contra hnot
              rw [not_or] at hnot
              simp [SwitchNetwork_unsupported_family _ _ _ _ _ _ _ _ _ ht hk hs hnot.1 hnot.2,
                InternalError, Status.ok] at hok
            rw [SwitchNetwork_configure _ _ _ _ _ _ _ _ _ ht hk hs hfamily] at howned ⊢
            split_ifs at howned ⊢ with hc
            simp only [Option.some.injEq] at howned
            subst howned
            exact ⟨_, rfl, rfl⟩

/-- C24, witness: the keyed sample datapath switches on a working platform,
which hands out the socket with fd 43. -/
theorem C24_network_fd_after_SwitchNetwork_witness :
    ∃ km,
      (keyedDatapath.SwitchNetwork workingPlatform 10 endpointV4
          (some networkN1) 0).2.key_material_ = some km ∧
        km.network_fd = (⟨43⟩ : IpSecSocket).GetFd :=
  C24_network_fd_after_SwitchNetwork keyedDatapath workingPlatform 10 endpointV4
    (some networkN1) 0 ⟨43⟩ rfl rfl

/-! ## C21: `GetDebugInfo` after `SetKeyMaterials` -/

/-- C21, counterexample.  On the keyed sample datapath, `SetKeyMaterials`
returns OK for two key materials with different uplink and different downlink
SPIs, and `GetDebugInfo` on an empty debug info leaves it empty after either:
with no forwarder it writes nothing, so the debug info reflects no SPI. -/
theorem C21_counterexample :
    keyedDatapath.key_material_ ≠ none ∧
      (keyedDatapath.SetKeyMaterials (TransformParams.ipsec rekeyedKeyMaterial)).1 = OkStatus ∧
      (keyedDatapath.SetKeyMaterials (TransformParams.ipsec sampleKeyMaterial)).1 = OkStatus ∧
      rekeyedKeyMaterial.uplink_spi ≠ sampleKeyMaterial.uplink_spi ∧
      rekeyedKeyMaterial.downlink_spi ≠ sampleKeyMaterial.downlink_spi ∧
      (keyedDatapath.SetKeyMaterials (TransformParams.ipsec rekeyedKeyMaterial)).2.GetDebugInfo
        sampleForwarderDebugInfo emptyDebugInfo = emptyDebugInfo ∧
      (keyedDatapath.SetKeyMaterials (TransformParams.ipsec sampleKeyMaterial)).2.GetDebugInfo
        sampleForwarderDebugInfo emptyDebugInfo = emptyDebugInfo := by
  decide

/-- C21, amended.  After `SetKeyMaterials(params)` returns OK, the stored key
material carries the uplink and downlink SPIs of `params`, and `GetDebugInfo`
produces exactly what it produced before the call: what the current forwarder
reports, or the debug info untouched when there is no forwarder.  It does not
depend on `params`. -/
theorem C21_GetDebugInfo_after_SetKeyMaterials (d : IpSecDatapath) (params : TransformParams)
    (forwarder_GetDebugInfo : IpSecPacketForwarder → DatapathDebugInfo → DatapathDebugInfo)
    (debug_info : DatapathDebugInfo)
    (hok : (d.SetKeyMaterials params).1.ok = true) :
    (d.SetKeyMaterials params).2.key_material_.map (fun km => (km.uplink_spi, km.downlink_spi))
        = some (params.get_ipsec.uplink_spi, params.get_ipsec.downlink_spi) ∧
      (d.SetKeyMaterials params).2.GetDebugInfo forwarder_GetDebugInfo debug_info
        = d.GetDebugInfo forwarder_GetDebugInfo debug_info ∧
      (d.forwarder_ = none →
        (d.SetKeyMaterials params).2.GetDebugInfo forwarder_GetDebugInfo debug_info
          = debug_info) := by
  cases hp : params.has_ipsec
  · simp [SetKeyMaterials, hp, InvalidArgumentError, Status.ok] at hok
  · refine ⟨by simp [SetKeyMaterials, hp], by simp [SetKeyMaterials, hp, GetDebugInfo], ?_⟩
    intro hnone
    simp [SetKeyMaterials, hp, GetDebugInfo, hnone]

/-- C21, witness: a rekey of the running sample datapath; the debug info is
what the forwarder reports, before and after. -/
theorem C21_GetDebugInfo_after_SetKeyMaterials_witness :
    (forwardingDatapath.SetKeyMaterials
        (TransformParams.ipsec rekeyedKeyMaterial)).2.key_material_.map
        (fun km => (km.uplink_spi, km.downlink_spi)) = some (7, 8) ∧
      (forwardingDatapath.SetKeyMaterials
        (TransformParams.ipsec rekeyedKeyMaterial)).2.GetDebugInfo
          sampleForwarderDebugInfo emptyDebugInfo
        = forwardingDatapath.GetDebugInfo sampleForwarderDebugInfo emptyDebugInfo :=
  have h := C21_GetDebugInfo_after_SetKeyMaterials forwardingDatapath
    (TransformParams.ipsec rekeyedKeyMaterial) sampleForwarderDebugInfo emptyDebugInfo rfl
  ⟨h.1, h.2.1⟩

/-! ## C25: the keepalive marker -/

theorem readRetry_last_mem (fd : Int) (reads : List ReadResult) (r : ReadResult)
    (h : (readRetry fd reads).2 = some r) : r ∈ readsIssued (readRetry fd reads).1 := by
  induction reads with
  | nil => simp [readRetry] at h
  | cons x xs ih =>
    unfold readRetry at h ⊢
    split_ifs at h ⊢ with hx
    · simp only [readsIssued, List.mem_cons]
      exact Or.inr (ih h)
    · simp only [Option.some.injEq] at h
      subst h
      simp [readsIssued]

theorem readRetry_last_mem_reads (fd : Int) (reads : List ReadResult) (r : ReadResult)
    (h : (readRetry fd reads).2 = some r) : r ∈ reads := by
  induction reads with
  | nil => simp [readRetry] at h
  | cons x xs ih =>
    unfold readRetry at h
    split_ifs at h with hx
    · exact List.mem_cons_of_mem _ (ih h)
    · simp only [Option.some.injEq] at h
      subst h
      exact List.mem_cons_self _ _

theorem ReadPackets_timeout_calls (t : IpSecTunnel) (env : ReadEnv) (hopen : 0 ≤ t.tunnel_fd_)
    (hstatus : (env.wait t.keepalive_interval_millis_).status.ok = true)
    (hevents : (env.wait t.keepalive_interval_millis_).num_events = 0) :
    callsSince t (ReadPackets t env).2
      = TunnelCall.wait t.keepalive_interval_millis_ ::
        (if env.close_during_wait then
          [TunnelCall.removeFile t.tunnel_fd_, TunnelCall.close t.tunnel_fd_,
           TunnelCall.notify 1]
         else []) := by
  apply callsSince_of_append
  cases hc : env.close_during_wait <;>
    simp [ReadPackets, not_lt.mpr hopen, hstatus, hevents, hc, record, Close]

theorem ReadPackets_marker_origin (t : IpSecTunnel) (env : ReadEnv) (packets : List Packet)
    (packet : Packet)
    (hresult : (ReadPackets t env).1 = some (Except.ok packets))
    (hmem : packet ∈ packets) :
    packet.ip_protocol = IPProtocol.kUnknown ∧
      (packet.data = [0xFF] →
        ((env.wait t.keepalive_interval_millis_).status.ok = true ∧
            (env.wait t.keepalive_interval_millis_).num_events = 0 ∧
            packets = [keepalivePacket]) ∨
          (∃ r, r ∈ env.reads ∧ r ∈ readsIssued (callsSince t (ReadPackets t env).2) ∧
            0 < r.read_bytes ∧ r.buffer.take r.read_bytes.toNat = [0xFF])) := by
  by_cases hopen : 0 ≤ t.tunnel_fd_
  · have h1 : ∃ cs, (if env.close_during_wait = true
        then (t.record (TunnelCall.wait t.keepalive_interval_millis_)).Close.2
        else t.record (TunnelCall.wait t.keepalive_interval_millis_)).calls
          = t.calls ++ cs := by
      cases env.close_during_wait <;> simp [record, Close, not_lt.mpr hopen]
    unfold ReadPackets at hresult ⊢
    rw [if_neg (not_lt.mpr hopen)] at hresult ⊢
    simp only [] at hresult ⊢
    revert h1 hresult
    generalize (if env.close_during_wait = true
      then (t.record (TunnelCall.wait t.keepalive_interval_millis_)).Close.2
      else t.record (TunnelCall.wait t.keepalive_interval_millis_)) = t1
    rintro ⟨cs, hcs⟩ hresult
    by_cases hok : (env.wait t.keepalive_interval_millis_).status.ok = true
    · by_cases hev : (env.wait t.keepalive_interval_millis_).num_events = 0
      · simp only [hok, hev, Bool.not_true, Bool.false_eq_true, if_false, if_true,
          Option.some.injEq, Except.ok.injEq] at hresult ⊢
        subst hresult
        simp only [List.mem_singleton] at hmem
        subst hmem
        exact ⟨rfl, fun _ => Or.inl ⟨trivial, trivial, rfl⟩⟩
      · simp only [hok, hev, Bool.not_true, Bool.false_eq_true, if_false] at hresult ⊢
        by_cases hfile : (env.wait t.keepalive_interval_millis_).event.file = t1.close_event_fd
        · simp only [hfile, if_true, Option.some.injEq, Except.ok.injEq] at hresult
          subst hresult
          simp at hmem
        · by_cases herror : (env.wait t.keepalive_interval_millis_).event.has_error = true
          · simp [hfile, herror] at hresult
          · by_cases hreadable : (env.wait t.keepalive_interval_millis_).event.can_read = true
            · by_cases hfd : t1.tunnel_fd_ < 0
              · simp [hfile, herror, hreadable, hfd] at hresult
              · cases hr : (readRetry t1.tunnel_fd_ env.reads).2 with
                | none => simp [hfile, herror, hreadable, hfd, hr] at hresult
                | some r =>
                  by_cases hle : r.read_bytes ≤ 0
                  · simp [hfile, herror, hreadable, hfd, hr, hle] at hresult
                  · simp only [hfile, herror, hreadable, hfd, hr, hle, if_false, if_true,
                      Bool.false_eq_true, Option.some.injEq, Except.ok.injEq] at hresult ⊢
                    subst hresult
                    simp only [List.mem_singleton] at hmem
                    subst hmem
                    refine ⟨rfl, fun hdata => Or.inr
                      ⟨r, readRetry_last_mem_reads _ _ _ hr, ?_, by omega, hdata⟩⟩
                    simp only [callsSince, record, hcs, List.append_assoc, List.drop_left',
                      readsIssued_append, List.mem_append]
                    exact Or.inr (Or.inr (readRetry_last_mem _ _ _ hr))
            · simp [hfile, herror, hreadable] at hresult
    · simp [hok] at hresult
  · rw [ReadPackets_of_closed t env (by omega)] at hresult
    simp at hresult

/-- C25.  The tunnel fd is that of a TUN device: a read that returns data
returns a raw IP packet.  Then a packet `ReadPackets` returns whose payload is
exactly the one byte `0xFF` is returned only when the wait timed out: it is the
keepalive packet, of unknown IP protocol, the only packet returned, and no
read of the fd was made in that call.  And a packet returned by a call that
did read the fd is not the marker: its payload is not that one byte. -/
theorem C25_keepalive_marker_reserved (t : IpSecTunnel) (env : ReadEnv)
    (packets : List Packet) (packet : Packet)
    (hip : ∀ r ∈ env.reads, r.carriesIpPacket)
    (hresult : (ReadPackets t env).1 = some (Except.ok packets))
    (hmem : packet ∈ packets) :
    (packet.data = [0xFF] →
        (env.wait t.keepalive_interval_millis_).status.ok = true ∧
          (env.wait t.keepalive_interval_millis_).num_events = 0 ∧
          packets = [keepalivePacket] ∧
          packet = keepalivePacket ∧
          packet.ip_protocol = IPProtocol.kUnknown ∧
          readsIssued (callsSince t (ReadPackets t env).2) = []) ∧
      (readsIssued (callsSince t (ReadPackets t env).2) ≠ [] →
        packet.data ≠ [0xFF] ∧ packet ≠ keepalivePacket) := by
  have hopen : 0 ≤ t.tunnel_fd_ := by
    by_contra hclosed
    rw [ReadPackets_of_closed t env (by omega)] at hresult
    simp at hresult
  obtain ⟨hprotocol, horigin⟩ := ReadPackets_marker_origin t env packets packet hresult hmem
  have hmarker : packet.data = [0xFF] →
      (env.wait t.keepalive_interval_millis_).status.ok = true ∧
        (env.wait t.keepalive_interval_millis_).num_events = 0 ∧
        packets = [keepalivePacket] ∧
        packet = keepalivePacket ∧
        packet.ip_protocol = IPProtocol.kUnknown ∧
        readsIssued (callsSince t (ReadPackets t env).2) = [] := by
    intro hdata
    rcases horigin hdata with ⟨hok, hev, hpackets⟩ | ⟨r, hr, -, hpos, hbytes⟩
    · refine ⟨hok, hev, hpackets, ?_, hprotocol, ?_⟩
      · rw [hpackets] at hmem
        exact List.mem_singleton.mp hmem
      · rw [ReadPackets_timeout_calls t env hopen hok hev]
        cases env.close_during_wait <;> simp [readsIssued]
    · have hlen := hip r hr hpos
      rw [hbytes] at hlen
      simp [kMinIpPacketSize] at hlen
  refine ⟨hmarker, fun hreads => ?_⟩
  have hne : packet.data ≠ [0xFF] := fun hdata => hreads (hmarker hdata).2.2.2.2.2
  exact ⟨hne, fun heq => hne (by rw [heq]; rfl)⟩

/-- C25, witness: a TUN device whose reads return IP packets.  On the sample
tunnel with a keepalive of 20 seconds the wait times out and the packet
returned is the marker, without a read; on the sample tunnel without
keepalive the packet returned was read and is not the marker. -/
theorem C25_keepalive_marker_reserved_witness :
    ((ReadPackets keepaliveTunnel ipPacketEnv).1 = some (Except.ok [keepalivePacket]) ∧
        (ipPacketEnv.wait keepaliveTunnel.keepalive_interval_millis_).num_events = 0 ∧
        readsIssued (callsSince keepaliveTunnel (ReadPackets keepaliveTunnel ipPacketEnv).2)
          = []) ∧
      ((ReadPackets openTunnel ipPacketEnv).1
          = some (Except.ok [⟨readIpPacket.buffer, IPProtocol.kUnknown,
              PacketRelease.deleteBuffer⟩]) ∧
        readIpPacket.buffer ≠ [0xFF] ∧
        (⟨readIpPacket.buffer, IPProtocol.kUnknown, PacketRelease.deleteBuffer⟩ : Packet)
          ≠ keepalivePacket) :=
  have htimeout := (C25_keepalive_marker_reserved keepaliveTunnel ipPacketEnv [keepalivePacket]
    keepalivePacket (by decide) rfl (List.mem_singleton.mpr rfl)).1 rfl
  have hread := (C25_keepalive_marker_reserved openTunnel ipPacketEnv
    [⟨readIpPacket.buffer, IPProtocol.kUnknown, PacketRelease.deleteBuffer⟩]
    ⟨readIpPacket.buffer, IPProtocol.kUnknown, PacketRelease.deleteBuffer⟩
    (by decide) rfl (List.mem_singleton.mpr rfl)).2 (by decide)
  ⟨⟨rfl, htimeout.2.1, htimeout.2.2.2.2.2⟩, ⟨rfl, hread.1, hread.2⟩⟩

/-! ## C28: the keepalive set by `CreateProtectedNetworkSocket` -/

theorem CreateProtectedNetworkSocket_of_tunnel (v : VpnService) (env : SocketEnv)
    (network_info : NetworkInfo) (endpoint : Endpoint) (tunnel : IpSecTunnel)
    (socket : IpSecSocket)
    (hjava : env.java_env = true) (hfd : 0 ≤ env.network_fd)
    (hcreate : env.create env.network_fd = Except.ok socket)
    (htunnel : v.tunnel_ = some tunnel) :
    ∃ result calls,
      v.CreateProtectedNetworkSocket env network_info endpoint
          = some (result,
              { v with tunnel_ := some (tunnel.SetKeepaliveInterval
                  (if endpoint.ip_protocol = IPProtocol.kIPv4 then v.keepalive_interval_ipv4_
                   else v.keepalive_interval_ipv6_)) },
              calls) ∧
        (env.connect.ok = true →
          result = Except.ok socket ∧ calls = [SocketCall.connect socket endpoint]) ∧
        (env.connect.ok = false →
          result = Except.error env.connect ∧
            calls = [SocketCall.connect socket endpoint, SocketCall.close socket]) := by
  have hfdok : VpnService.CreateProtectedNetworkSocket_fd env network_info
      = Except.ok env.network_fd := by
    simp [VpnService.CreateProtectedNetworkSocket_fd, hjava, not_lt.mpr hfd]
  cases hc : env.connect.ok
  · refine ⟨Except.error env.connect,
      [SocketCall.connect socket endpoint, SocketCall.close socket], ?_, by simp, by simp⟩
    by_cases h4 : endpoint.ip_protocol = IPProtocol.kIPv4 <;>
      simp [VpnService.CreateProtectedNetworkSocket, hfdok, hcreate, htunnel, hc, h4]
  · refine ⟨Except.ok socket, [SocketCall.connect socket endpoint], ?_, by simp, by simp⟩
    by_cases h4 : endpoint.ip_protocol = IPProtocol.kIPv4 <;>
      simp [VpnService.CreateProtectedNetworkSocket, hfdok, hcreate, htunnel, hc, h4]

end Krypton
